import Mathlib

/-!
# Verification of the camsim frame-simulation core

Shallow embedding of the camsim library (`libcamsim`): the keyframe animation
component (`animation.cpp`, `transformation.cpp`) and the simulator's timestamp
scheduler, configuration sanity checks and output accessors (`simulator.cpp`).

Modelling conventions:

* C++ `long long` timestamps become `Int` (no claim exercises 64-bit overflow).
* `float`/`double` quantities (seconds, transformation components) are
  idealized as `ℚ`.  The only place a floating-point value is converted to an
  integer is the seconds-to-microseconds conversion, where the C++
  `double → long long` cast truncates toward zero; this is `cppTrunc` below.
* `QQuaternion::slerp` is transcendental; it is kept abstract as a parameter
  `slerp : SlerpFun` of the interpolation functions, so every theorem below
  holds for the actual kernel (and any other).
* `QList`/`QVector` become `List`; `operator[]` (whose out-of-range behaviour
  is undefined in C++) becomes a total `getD` access, used in-bounds in all
  verified executions.
* GPU state (shader programs, textures, render passes) is outside the model:
  texture handles are opaque `Nat` slots in the simulator state and render
  passes do not affect any modelled field.  The fatal configuration checks of
  `Simulator::recreateShadersIfNecessary` and the bookkeeping state machine
  (dirty flags, timestamps, transformation caches) are modelled exactly.
-/

namespace CamSim

/-- Component-wise rational 3-vector (models `QVector3D`, `float` idealized as `ℚ`). -/
structure Vec3 where
  x : ℚ
  y : ℚ
  z : ℚ
deriving DecidableEq

/-- Rational quaternion (models `QQuaternion`; scalar part first). -/
structure Quat where
  w : ℚ
  xi : ℚ
  yi : ℚ
  zi : ℚ
deriving DecidableEq

/-- `QVector3D()`: the zero vector. -/
def Vec3.zero : Vec3 := ⟨0, 0, 0⟩

/-- `QVector3D(1,1,1)`: unit scaling. -/
def Vec3.ones : Vec3 := ⟨1, 1, 1⟩

/-- `QQuaternion()`: the identity rotation. -/
def Quat.one : Quat := ⟨1, 0, 0, 0⟩

/-- `Transformation` from `transformation.hpp`: translation, rotation, scaling. -/
structure Transformation where
  translation : Vec3
  rotation : Quat
  scaling : Vec3
deriving DecidableEq

/-- `Transformation::Transformation()`: zero translation, identity rotation, unit
scaling (`transformation.cpp` lines 29-32). -/
def Transformation.identity : Transformation := ⟨Vec3.zero, Quat.one, Vec3.ones⟩

instance : Inhabited Transformation := ⟨Transformation.identity⟩

/-- The type of the rotation-blend kernel (`QQuaternion::slerp` in the source).
The kernel is transcendental floating-point code, kept abstract here. -/
abbrev SlerpFun := Quat → Quat → ℚ → Quat

/-- `(1-alpha)*a + alpha*b`, component-wise. -/
def Vec3.blend (a b : Vec3) (alpha : ℚ) : Vec3 :=
  ⟨(1 - alpha) * a.x + alpha * b.x,
   (1 - alpha) * a.y + alpha * b.y,
   (1 - alpha) * a.z + alpha * b.z⟩

/-- `Transformation::interpolate(p0, p1, alpha)` (`transformation.cpp` lines
59-66): linear blend of translation and scaling, `slerp` on rotation. -/
def Transformation.interpolate (slerp : SlerpFun) (p0 p1 : Transformation)
    (alpha : ℚ) : Transformation :=
  ⟨Vec3.blend p0.translation p1.translation alpha,
   slerp p0.rotation p1.rotation alpha,
   Vec3.blend p0.scaling p1.scaling alpha⟩

/-- `Animation::Keyframe`: a timestamp in microseconds and a transformation. -/
structure Keyframe where
  t : Int
  transformation : Transformation
deriving DecidableEq

instance : Inhabited Keyframe := ⟨⟨0, Transformation.identity⟩⟩

/-- `Animation`: a list of keyframes (kept sorted by ascending time). -/
structure Animation where
  keyframes : List Keyframe
deriving DecidableEq

/-- The sortedness invariant stated in `animation.hpp` line 75: the keyframe
list is sorted by strictly ascending timestamp (hence one keyframe per
timestamp). -/
def KeyframesSorted (kfs : List Keyframe) : Prop :=
  List.Pairwise (fun p q => p.t < q.t) kfs

instance (kfs : List Keyframe) : Decidable (KeyframesSorted kfs) :=
  inferInstanceAs (Decidable (List.Pairwise _ _))

/-- `Animation::startTime()`: time of the first keyframe, 0 if there is none. -/
def Animation.startTime (an : Animation) : Int :=
  if an.keyframes.length = 0 then 0 else (an.keyframes.headD default).t

/-- `Animation::endTime()`: time of the last keyframe, 0 if there is none. -/
def Animation.endTime (an : Animation) : Int :=
  if an.keyframes.length = 0 then 0 else (an.keyframes.getLastD default).t

/-- `QList<Keyframe>::operator[]` with a C++ `int` index; total here (all
verified executions stay in bounds). -/
def kfGet (kfs : List Keyframe) (i : Int) : Keyframe := kfs.getD i.toNat default

/-- The binary-search loop of `findKeyframeIndices` (`animation.cpp` lines
52-66).  The C++ `while (b >= a)` loop is given a fuel argument; the interval
width shrinks every iteration, so `kfs.length + 1` units of fuel (supplied by
`findKeyframeIndices`) are never exhausted, and the fuel-out value coincides
with the loop-exit value `(b, a)`.  `(a + b) / 2` uses Lean's floor division;
the C++ `int` division truncates toward zero, and the two agree because
`a + b` is nonnegative whenever the loop body runs (`0 <= a <= b`). -/
def findLoop (kfs : List Keyframe) (t : Int) : Nat → Int → Int → Int × Int
  | 0, a, b => (b, a)
  | fuel + 1, a, b =>
    if a ≤ b then
      let c := (a + b) / 2
      if (kfGet kfs c).t < t then findLoop kfs t fuel (c + 1) b
      else if t < (kfGet kfs c).t then findLoop kfs t fuel a (c - 1)
      else (c, c)
    else (b, a)

/-- `findKeyframeIndices` (`animation.cpp` lines 46-70): binary search for the
pair of indices bracketing time `t`; on an exact hit both components are the
hit index. -/
def findKeyframeIndices (kfs : List Keyframe) (t : Int) : Int × Int :=
  findLoop kfs t (kfs.length + 1) 0 ((kfs.length : Int) - 1)

/-- `Animation::addKeyframe` (`animation.cpp` lines 72-91): append/prepend fast
paths, overwrite on an exact timestamp match, otherwise insert before the
higher bracketing index (`QList::insert`). -/
def Animation.addKeyframe (an : Animation) (kf : Keyframe) : Animation :=
  if an.keyframes.length = 0 then ⟨an.keyframes ++ [kf]⟩
  else if an.endTime < kf.t then ⟨an.keyframes ++ [kf]⟩
  else if kf.t < an.startTime then ⟨kf :: an.keyframes⟩
  else
    let p := findKeyframeIndices an.keyframes kf.t
    if p.1 = p.2 then ⟨an.keyframes.set p.1.toNat kf⟩
    else ⟨an.keyframes.insertIdx p.2.toNat kf⟩

/-- `Animation::interpolate(t)` (`animation.cpp` lines 93-117): identity for an
empty animation, clamping to the first/last keyframe outside the covered
range, exact-hit lookup, and otherwise a blend of the bracketing pair at
`alpha = 1 - (t_hi - t) / (t_hi - t_lo)`. -/
def Animation.interpolate (slerp : SlerpFun) (an : Animation) (t : Int) :
    Transformation :=
  if an.keyframes.length = 0 then Transformation.identity
  else if t ≤ an.startTime then (an.keyframes.headD default).transformation
  else if an.endTime ≤ t then (an.keyframes.getLastD default).transformation
  else
    let p := findKeyframeIndices an.keyframes t
    if p.1 = p.2 then (kfGet an.keyframes p.1).transformation
    else
      Transformation.interpolate slerp
        (kfGet an.keyframes p.1).transformation
        (kfGet an.keyframes p.2).transformation
        (1 - (((kfGet an.keyframes p.2).t - t : Int) : ℚ)
            / (((kfGet an.keyframes p.2).t - (kfGet an.keyframes p.1).t : Int) : ℚ))

/-- Truncation toward zero, the C++ `double → long long` conversion applied to
the idealized rational value. -/
def cppTrunc (q : ℚ) : Int := if q < 0 then -⌊-q⌋ else ⌊q⌋

/-- `ChipTiming` (`simulator.hpp` lines 61-84): per-sub-frame exposure and
readout times and the inter-frame pause, in seconds. -/
structure ChipTiming where
  exposureTime : ℚ
  readoutTime : ℚ
  pauseTime : ℚ
deriving DecidableEq

/-- `ChipTiming::subFrameDuration()`: `exposureTime + readoutTime` seconds. -/
def ChipTiming.subFrameDuration (ct : ChipTiming) : ℚ :=
  ct.exposureTime + ct.readoutTime

/-- `ChipTiming::ChipTiming()` (`simulator.cpp` lines 42-47): 1/60 s exposure,
1/60 s readout, no pause. -/
def ChipTiming.init : ChipTiming := ⟨mkRat 1 60, mkRat 1 60, 0⟩

/-- The `Output` flag struct (`simulator.hpp` lines 269-326). -/
structure Output where
  rgb : Bool
  srgb : Bool
  pmd : Bool
  pmdCoordinates : Bool
  eyeSpacePositions : Bool
  customSpacePositions : Bool
  eyeSpaceNormals : Bool
  customSpaceNormals : Bool
  depthAndRange : Bool
  indices : Bool
  forwardFlow3D : Bool
  forwardFlow2D : Bool
  backwardFlow3D : Bool
  backwardFlow2D : Bool
deriving DecidableEq

/-- `Output::Output()` (`simulator.cpp` lines 184-200): only `rgb` enabled. -/
def Output.init : Output :=
  ⟨true, false, false, false, false, false, false, false, false, false,
   false, false, false, false⟩

/-- The `Pipeline` configuration fields consumed by the modelled code paths
(sanity checks and sub-frame timestamp grid); rendering-only fields
(clipping planes, noise, shadow-map toggles, ...) are omitted. -/
structure Pipeline where
  preprocLensDistortion : Bool
  postprocLensDistortion : Bool
  subFrameTemporalSampling : Bool
  spatialSamplesWidth : Int
  spatialSamplesHeight : Int
  spatialSampleWeightsSize : Int
  temporalSamples : Int
deriving DecidableEq

/-- `Pipeline::Pipeline()` (`simulator.cpp` lines 156-182): no lens
distortion, sub-frame temporal sampling on, 1x1 spatial samples, no explicit
weights, 1 temporal sample. -/
def Pipeline.init : Pipeline := ⟨false, false, true, 1, 1, 0, 1⟩

/-- `Scene` (`scene.hpp` lines 327-358), restricted to what the modelled code
reads: the entity counts (`lights.size()`, `objects.size()`) and the two
animation lists.  Light/object payloads (geometry, radiometry) feed only the
GPU passes, which are outside the model. -/
structure Scene where
  lights : Nat
  lightAnimations : List Animation
  objects : Nat
  objectAnimations : List Animation
deriving DecidableEq

/-- A default-constructed `Scene`: empty lists. -/
def Scene.init : Scene := ⟨0, [], 0, []⟩

/-- `QList<Animation>::operator[]`, total with an empty-animation default. -/
def animGet (l : List Animation) (i : Nat) : Animation := l.getD i ⟨[]⟩

/-- The fatal configuration errors diagnosed by
`Simulator::recreateShadersIfNecessary` (`simulator.cpp` lines 408-445); each
corresponds to one `qCritical` + `std::exit(1)` site, in source order. -/
inductive ConfigError where
  | noLights
  | lightAnimationCount
  | objectAnimationCount
  | spatialSamples
  | spatialSampleWeights
  | temporalSamples
  | bothLensDistortions
  | postprocIncompatibleOutputs
deriving DecidableEq

/-- `Simulator` state (`simulator.hpp` lines 351-420): configuration,
dirty flags, cached timestamp bounds, last simulated frame, the per-sub-frame
timestamp/transformation caches, and the output texture handle slots (opaque
`Nat`s here; the GPU objects themselves are unmodelled). -/
structure Simulator where
  cameraAnimation : Animation
  scene : Scene
  chipTiming : ChipTiming
  pipeline : Pipeline
  output : Output
  recreateTimestamps : Bool
  startTimestampC : Int
  endTimestampC : Int
  haveLastFrameTimestamp : Bool
  lastFrameTimestamp : Int
  recreateShaders : Bool
  recreateOutput : Bool
  timestamps : List Int
  cameraTransformations : List Transformation
  lightTransformations : List (List Transformation)
  objectTransformations : List (List Transformation)
  rgbTexs : List Nat
  srgbTexs : List Nat
  pmdDigNumTexs : List Nat
  eyeSpacePosTexs : List Nat
  customSpacePosTexs : List Nat
  eyeSpaceNormalTexs : List Nat
  customSpaceNormalTexs : List Nat
  depthAndRangeTexs : List Nat
  indicesTexs : List Nat
  forwardFlow3DTexs : List Nat
  forwardFlow2DTexs : List Nat
  backwardFlow3DTexs : List Nat
  backwardFlow2DTexs : List Nat
deriving DecidableEq

namespace Simulator

/-- `Simulator::Simulator()` (`simulator.cpp` lines 255-269): all three dirty
flags start true; members without an initializer are modelled as zero/empty
(they are never read before being written, since the dirty flags are set). -/
def init : Simulator :=
  { cameraAnimation := ⟨[]⟩
    scene := Scene.init
    chipTiming := ChipTiming.init
    pipeline := Pipeline.init
    output := Output.init
    recreateTimestamps := true
    startTimestampC := 0
    endTimestampC := 0
    haveLastFrameTimestamp := false
    lastFrameTimestamp := 0
    recreateShaders := true
    recreateOutput := true
    timestamps := []
    cameraTransformations := []
    lightTransformations := []
    objectTransformations := []
    rgbTexs := []
    srgbTexs := []
    pmdDigNumTexs := []
    eyeSpacePosTexs := []
    customSpacePosTexs := []
    eyeSpaceNormalTexs := []
    customSpaceNormalTexs := []
    depthAndRangeTexs := []
    indicesTexs := []
    forwardFlow3DTexs := []
    forwardFlow2DTexs := []
    backwardFlow3DTexs := []
    backwardFlow2DTexs := [] }

/-- `Simulator::setCameraAnimation` (`simulator.cpp` lines 271-275). -/
def setCameraAnimation (s : Simulator) (a : Animation) : Simulator :=
  { s with cameraAnimation := a, recreateTimestamps := true }

/-- `Simulator::setScene` (`simulator.cpp` lines 282-288). -/
def setScene (s : Simulator) (sc : Scene) : Simulator :=
  { s with scene := sc, recreateShaders := true, recreateTimestamps := true,
           recreateOutput := true }

/-- `Simulator::setChipTiming` (`simulator.cpp` lines 290-294). -/
def setChipTiming (s : Simulator) (ct : ChipTiming) : Simulator :=
  { s with chipTiming := ct, recreateTimestamps := true }

/-- `Simulator::setPipeline` (`simulator.cpp` lines 307-312). -/
def setPipeline (s : Simulator) (p : Pipeline) : Simulator :=
  { s with pipeline := p, recreateShaders := true, recreateOutput := true }

/-- `Simulator::setOutput` (`simulator.cpp` lines 314-319). -/
def setOutput (s : Simulator) (o : Output) : Simulator :=
  { s with output := o, recreateShaders := true, recreateOutput := true }

/-- `Simulator::subFrames()` (`simulator.cpp` lines 326-329): 4 sub-frames
when PMD output is enabled, else 1. -/
def subFrames (s : Simulator) : Int := if s.output.pmd then 4 else 1

/-- `subFrames()` as a `Nat`, for building the per-sub-frame caches. -/
def subFramesN (s : Simulator) : Nat := if s.output.pmd then 4 else 1

/-- `Simulator::subFrameDuration()` (`simulator.cpp` lines 370-373):
`_chipTiming.subFrameDuration() * 1e6`, `double` truncated to `long long`. -/
def subFrameDuration (s : Simulator) : Int :=
  cppTrunc (s.chipTiming.subFrameDuration * 1000000)

/-- `Simulator::frameDuration()` (`simulator.cpp` lines 375-378):
`subFrameDuration() * subFrames() + _chipTiming.pauseTime * 1e6`.  The C++
addition happens in `double` (the pause term is a `double`), and the sum is
truncated to `long long` on return. -/
def frameDuration (s : Simulator) : Int :=
  cppTrunc (((s.subFrameDuration * s.subFrames : Int) : ℚ)
    + s.chipTiming.pauseTime * 1000000)

/-- The folding step of the start-timestamp minimum in
`Simulator::recreateTimestampsIfNecessary` (`if (s < _startTimestamp)`). -/
def foldStart (init : Int) (l : List Animation) : Int :=
  l.foldl (fun acc an => if an.startTime < acc then an.startTime else acc) init

/-- The folding step of the end-timestamp maximum in
`Simulator::recreateTimestampsIfNecessary` (`if (e > _endTimestamp)`). -/
def foldEnd (init : Int) (l : List Animation) : Int :=
  l.foldl (fun acc an => if acc < an.endTime then an.endTime else acc) init

/-- `Simulator::recreateTimestampsIfNecessary` (`simulator.cpp` lines
331-356): when the timestamp dirty flag is set, recompute the cached
start/end bounds from the camera animation and all light and object
animations, clear the record of the last simulated frame, and clear the
flag. -/
def recreateTimestampsIfNecessary (s : Simulator) : Simulator :=
  if s.recreateTimestamps then
    { s with
      startTimestampC :=
        foldStart (foldStart s.cameraAnimation.startTime s.scene.lightAnimations)
          s.scene.objectAnimations
      endTimestampC :=
        foldEnd (foldEnd s.cameraAnimation.endTime s.scene.lightAnimations)
          s.scene.objectAnimations
      haveLastFrameTimestamp := false
      recreateTimestamps := false }
  else s

/-- `Simulator::startTimestamp()` (`simulator.cpp` lines 358-362); returns the
value together with the (possibly recomputed) state. -/
def startTimestamp (s : Simulator) : Int × Simulator :=
  let s1 := s.recreateTimestampsIfNecessary
  (s1.startTimestampC, s1)

/-- `Simulator::endTimestamp()` (`simulator.cpp` lines 364-368). -/
def endTimestamp (s : Simulator) : Int × Simulator :=
  let s1 := s.recreateTimestampsIfNecessary
  (s1.endTimestampC, s1)

/-- `Simulator::nextFrameTimestamp()` (`simulator.cpp` lines 385-393). -/
def nextFrameTimestamp (s : Simulator) : Int × Simulator :=
  let s1 := s.recreateTimestampsIfNecessary
  if s1.haveLastFrameTimestamp then (s1.lastFrameTimestamp + s1.frameDuration, s1)
  else (s1.startTimestampC, s1)

/-- The sanity-check cascade at the top of
`Simulator::recreateShadersIfNecessary` (`simulator.cpp` lines 408-445), in
source order; `some e` models `qCritical` + `std::exit(1)`. -/
def sanityCheck (s : Simulator) : Option ConfigError :=
  if s.scene.lights < 1 then some .noLights
  else if s.scene.lights ≠ s.scene.lightAnimations.length then
    some .lightAnimationCount
  else if s.scene.objects ≠ s.scene.objectAnimations.length then
    some .objectAnimationCount
  else if s.pipeline.spatialSamplesWidth < 1 ∨ s.pipeline.spatialSamplesWidth % 2 ≠ 1
      ∨ s.pipeline.spatialSamplesHeight < 1 ∨ s.pipeline.spatialSamplesHeight % 2 ≠ 1 then
    some .spatialSamples
  else if 0 < s.pipeline.spatialSampleWeightsSize
      ∧ s.pipeline.spatialSampleWeightsSize
        ≠ s.pipeline.spatialSamplesWidth * s.pipeline.spatialSamplesHeight then
    some .spatialSampleWeights
  else if s.pipeline.temporalSamples < 1 then some .temporalSamples
  else if s.pipeline.preprocLensDistortion ∧ s.pipeline.postprocLensDistortion then
    some .bothLensDistortions
  else if s.pipeline.postprocLensDistortion
      ∧ (s.output.indices ∨ s.output.forwardFlow3D ∨ s.output.forwardFlow2D
        ∨ s.output.backwardFlow3D ∨ s.output.backwardFlow2D) then
    some .postprocIncompatibleOutputs
  else none

/-- `Simulator::recreateShadersIfNecessary` (`simulator.cpp` lines 403-445):
a no-op when the shader dirty flag is clear; otherwise the sanity checks run
first (`.error` models process abort) and on success the programs are rebuilt
(unmodelled GPU work) and the flag cleared. -/
def recreateShadersIfNecessary (s : Simulator) : Except ConfigError Simulator :=
  if s.recreateShaders then
    match s.sanityCheck with
    | some e => .error e
    | none => .ok { s with recreateShaders := false }
  else .ok s

/-- `Simulator::recreateOutputIfNecessary` (`simulator.cpp` lines 887-1178):
reallocates all render targets (unmodelled GPU work), clears the record of the
last simulated frame (line 1175) and clears the flag. -/
def recreateOutputIfNecessary (s : Simulator) : Simulator :=
  if s.recreateOutput then
    { s with haveLastFrameTimestamp := false, recreateOutput := false }
  else s

/-- The sub-frame timestamp grid of `Simulator::simulateTimestamps`
(`simulator.cpp` lines 1196-1201): `t + subFrame * subFrameDuration()` under
sub-frame temporal sampling, else `t` for every sub-frame. -/
def subFrameTimestamp (s : Simulator) (t : Int) (sf : Nat) : Int :=
  if s.pipeline.subFrameTemporalSampling then t + sf * s.subFrameDuration else t

/-- `Simulator::simulateTimestamps` + `simulateSampleTimestamp`
(`simulator.cpp` lines 1194-1221): fill the per-sub-frame timestamp cache and
interpolate the camera/light/object animations at each sub-frame timestamp.
`_lightTransformations[subFrame][lightIndex]` holds light `lightIndex` at
sub-frame `subFrame` (cf. `simulator.hpp` lines 398-399), and likewise for
objects. -/
def simulateTimestamps (slerp : SlerpFun) (s : Simulator) (t : Int) : Simulator :=
  { s with
    timestamps := (List.range s.subFramesN).map (s.subFrameTimestamp t)
    cameraTransformations :=
      (List.range s.subFramesN).map
        (fun sf => s.cameraAnimation.interpolate slerp (s.subFrameTimestamp t sf))
    lightTransformations :=
      (List.range s.subFramesN).map
        (fun sf => (List.range s.scene.lights).map
          (fun l => (animGet s.scene.lightAnimations l).interpolate slerp
            (s.subFrameTimestamp t sf)))
    objectTransformations :=
      (List.range s.subFramesN).map
        (fun sf => (List.range s.scene.objects).map
          (fun o => (animGet s.scene.objectAnimations o).interpolate slerp
            (s.subFrameTimestamp t sf))) }

/-- `Simulator::simulate(frameTimestamp)` (`simulator.cpp` lines 1977-2117):
resolve shaders (fatal sanity checks first) and output targets, compute the
sub-frame timestamps and transformations, run the render passes (unmodelled
GPU work), and finally record this frame's timestamp as the last one. -/
def simulate (slerp : SlerpFun) (s : Simulator) (t : Int) :
    Except ConfigError Simulator :=
  match s.recreateShadersIfNecessary with
  | .error e => .error e
  | .ok s1 =>
    let s2 := s1.recreateOutputIfNecessary
    let s3 := s2.simulateTimestamps slerp t
    .ok { s3 with lastFrameTimestamp := t, haveLastFrameTimestamp := true }

/-- `Simulator::haveValidOutput(i)` (`simulator.cpp` lines 2127-2130). -/
def haveValidOutput (s : Simulator) (i : Int) : Bool :=
  !s.recreateOutput && s.haveLastFrameTimestamp
    && decide (-1 ≤ i) && decide (i < s.subFrames)

/-- `Simulator::getTimestamp(i)` (`simulator.cpp` lines 2119-2125). -/
def getTimestamp (s : Simulator) (i : Int) : Int :=
  if !s.haveLastFrameTimestamp || decide (i < -1) || decide (s.subFrames ≤ i) then 0
  else s.timestamps.getD (if i < 0 then 0 else i.toNat) 0

/-- Texture-handle list indexing (`QVector<unsigned int>::operator[]`). -/
def texAt (l : List Nat) (i : Int) : Nat := l.getD i.toNat 0

/-- `QVector<unsigned int>::last()`. -/
def texLast (l : List Nat) : Nat := l.getLastD 0

/-- `Simulator::getRGBTex(i)` (`simulator.cpp` lines 2165-2168). -/
def getRGBTex (s : Simulator) (i : Int) : Nat :=
  if s.output.rgb && s.haveValidOutput i then
    (if i = -1 then texLast s.rgbTexs else texAt s.rgbTexs i) else 0

/-- `Simulator::getSRGBTex(i)` (`simulator.cpp` lines 2170-2173). -/
def getSRGBTex (s : Simulator) (i : Int) : Nat :=
  if s.output.rgb && s.output.srgb && s.haveValidOutput i then
    (if i = -1 then texLast s.srgbTexs else texAt s.srgbTexs i) else 0

/-- `Simulator::getPMDTex(i)` (`simulator.cpp` lines 2175-2178). -/
def getPMDTex (s : Simulator) (i : Int) : Nat :=
  if s.output.pmd && s.haveValidOutput i then
    (if i = -1 then texLast s.pmdDigNumTexs else texAt s.pmdDigNumTexs i) else 0

/-- `Simulator::getEyeSpacePositionsTex(i)` (`simulator.cpp` lines 2185-2188). -/
def getEyeSpacePositionsTex (s : Simulator) (i : Int) : Nat :=
  if s.output.eyeSpacePositions && s.haveValidOutput i then
    (if i = -1 then texAt s.eyeSpacePosTexs 0 else texAt s.eyeSpacePosTexs i) else 0

/-- `Simulator::getCustomSpacePositionsTex(i)` (`simulator.cpp` lines 2190-2193). -/
def getCustomSpacePositionsTex (s : Simulator) (i : Int) : Nat :=
  if s.output.customSpacePositions && s.haveValidOutput i then
    (if i = -1 then texAt s.customSpacePosTexs 0 else texAt s.customSpacePosTexs i) else 0

/-- `Simulator::getEyeSpaceNormalsTex(i)` (`simulator.cpp` lines 2195-2198). -/
def getEyeSpaceNormalsTex (s : Simulator) (i : Int) : Nat :=
  if s.output.eyeSpaceNormals && s.haveValidOutput i then
    (if i = -1 then texAt s.eyeSpaceNormalTexs 0 else texAt s.eyeSpaceNormalTexs i) else 0

/-- `Simulator::getCustomSpaceNormalsTex(i)` (`simulator.cpp` lines 2200-2203). -/
def getCustomSpaceNormalsTex (s : Simulator) (i : Int) : Nat :=
  if s.output.customSpaceNormals && s.haveValidOutput i then
    (if i = -1 then texAt s.customSpaceNormalTexs 0 else texAt s.customSpaceNormalTexs i) else 0

/-- `Simulator::getDepthAndRangeTex(i)` (`simulator.cpp` lines 2205-2208). -/
def getDepthAndRangeTex (s : Simulator) (i : Int) : Nat :=
  if s.output.depthAndRange && s.haveValidOutput i then
    (if i = -1 then texAt s.depthAndRangeTexs 0 else texAt s.depthAndRangeTexs i) else 0

/-- `Simulator::getIndicesTex(i)` (`simulator.cpp` lines 2210-2213). -/
def getIndicesTex (s : Simulator) (i : Int) : Nat :=
  if s.output.indices && s.haveValidOutput i then
    (if i = -1 then texAt s.indicesTexs 0 else texAt s.indicesTexs i) else 0

/-- `Simulator::getForwardFlow3DTex(i)` (`simulator.cpp` lines 2215-2218). -/
def getForwardFlow3DTex (s : Simulator) (i : Int) : Nat :=
  if s.output.forwardFlow3D && s.haveValidOutput i then
    (if i = -1 then texLast s.forwardFlow3DTexs else texAt s.forwardFlow3DTexs i) else 0

/-- `Simulator::getForwardFlow2DTex(i)` (`simulator.cpp` lines 2220-2223). -/
def getForwardFlow2DTex (s : Simulator) (i : Int) : Nat :=
  if s.output.forwardFlow2D && s.haveValidOutput i then
    (if i = -1 then texLast s.forwardFlow2DTexs else texAt s.forwardFlow2DTexs i) else 0

/-- `Simulator::getBackwardFlow3DTex(i)` (`simulator.cpp` lines 2225-2228). -/
def getBackwardFlow3DTex (s : Simulator) (i : Int) : Nat :=
  if s.output.backwardFlow3D && s.haveValidOutput i then
    (if i = -1 then texLast s.backwardFlow3DTexs else texAt s.backwardFlow3DTexs i) else 0

/-- `Simulator::getBackwardFlow2DTex(i)` (`simulator.cpp` lines 2230-2233). -/
def getBackwardFlow2DTex (s : Simulator) (i : Int) : Nat :=
  if s.output.backwardFlow2D && s.haveValidOutput i then
    (if i = -1 then texLast s.backwardFlow2DTexs else texAt s.backwardFlow2DTexs i) else 0

/-- Double indexing into the per-sub-frame transformation caches
(`QVector<QVector<Transformation>>::operator[]` twice). -/
def trAt (tss : List (List Transformation)) (a b : Int) : Transformation :=
  (tss.getD a.toNat []).getD b.toNat Transformation.identity

/-- `Simulator::getLightTransformation(lightIndex, i)` (`simulator.cpp` lines
2242-2248), including its indexing of `_lightTransformations` by
`[lightIndex][i]`; `NullTransformation` is a default-constructed
`Transformation`. -/
def getLightTransformation (s : Simulator) (lightIndex i : Int) : Transformation :=
  if 0 ≤ lightIndex ∧ lightIndex < (s.scene.lights : Int) ∧ s.haveValidOutput i then
    (if i = -1 then trAt s.lightTransformations lightIndex 0
     else trAt s.lightTransformations lightIndex i)
  else Transformation.identity

/-- `Simulator::getObjectTransformation(objectIndex, i)` (`simulator.cpp`
lines 2250-2256). -/
def getObjectTransformation (s : Simulator) (objectIndex i : Int) : Transformation :=
  if 0 ≤ objectIndex ∧ objectIndex < (s.scene.objects : Int) ∧ s.haveValidOutput i then
    (if i = -1 then trAt s.objectTransformations objectIndex 0
     else trAt s.objectTransformations objectIndex i)
  else Transformation.identity

end Simulator

/-- `true` when a `simulate` call hit a fatal configuration error
(`std::exit(1)` in the source). -/
def isFatal (r : Except ConfigError Simulator) : Bool :=
  match r with
  | .error _ => true
  | .ok _ => false

/-- Extract the post-state of a successful `simulate` call. -/
def simOk (r : Except ConfigError Simulator) : Simulator :=
  match r with
  | .ok s => s
  | .error _ => Simulator.init

/-- The frame loop body used by the example programs
(`camsim-pmd-example.cpp` lines 158-163): `for (t = startTimestamp();
t < endTimestamp(); t = nextFrameTimestamp()) simulate(t);`.  The fuel bounds
the number of iterations; the returned `Nat` counts the `simulate` calls. -/
def frameLoopGo (slerp : SlerpFun) : Nat → Simulator → Int → Nat × Simulator
  | 0, s, _ => (0, s)
  | fuel + 1, s, t =>
    let e := s.endTimestamp
    if t < e.1 then
      match e.2.simulate slerp t with
      | .error _ => (0, e.2)
      | .ok s2 =>
        let n := s2.nextFrameTimestamp
        let r := frameLoopGo slerp fuel n.2 n.1
        (r.1 + 1, r.2)
    else (0, e.2)

/-- The documented frame loop: seed `t` with `startTimestamp()`, then iterate
`frameLoopGo`. -/
def Simulator.frameLoop (slerp : SlerpFun) (fuel : Nat) (s : Simulator) :
    Nat × Simulator :=
  let b := s.startTimestamp
  frameLoopGo slerp fuel b.2 b.1

/-- A concrete rotation-blend kernel used to instantiate `SlerpFun` in
concrete evaluations (the claims hold for every kernel). -/
def constSlerp : SlerpFun := fun q _ _ => q

/-! ### Concrete configurations used in counterexamples and witnesses -/

/-- A scene with one light whose animation has no keyframes. -/
def emptyAnimScene : Scene := ⟨1, [⟨[]⟩], 0, []⟩

/-- A chip timing with integral microsecond values: 1 s exposure, no readout,
no pause (so `frameDuration` is exactly 1000000 µs for one sub-frame). -/
def intChip : ChipTiming := ⟨1, 0, 0⟩

/-- The default pipeline with sub-frame temporal sampling disabled (a
documented configuration switch, `Pipeline::subFrameTemporalSampling`). -/
def noSubTimePipe : Pipeline := ⟨false, false, false, 1, 1, 0, 1⟩

/-- A freshly constructed simulator configured with `emptyAnimScene`,
`intChip` and `noSubTimePipe`, on which `simulate` is then called directly —
without any timestamp query in between. -/
def c1Sim : Simulator :=
  ((Simulator.init.setScene emptyAnimScene).setChipTiming intChip).setPipeline
    noSubTimePipe

/-- A transformation translated by (1,0,0). -/
def lightT0 : Transformation := ⟨⟨1, 0, 0⟩, Quat.one, Vec3.ones⟩

/-- A transformation translated by (2,0,0). -/
def lightT1 : Transformation := ⟨⟨2, 0, 0⟩, Quat.one, Vec3.ones⟩

/-- A scene with two lights whose (constant) animations differ: light 0 is
always at `lightT0`, light 1 always at `lightT1`. -/
def twoLightScene : Scene := ⟨2, [⟨[⟨0, lightT0⟩]⟩, ⟨[⟨0, lightT1⟩]⟩], 0, []⟩

/-- Output configuration with PMD (time-of-flight) enabled, so that
`subFrames() = 4`. -/
def pmdOutput : Output :=
  ⟨true, false, true, false, false, false, false, false, false, false,
   false, false, false, false⟩

/-- The simulator of the C2 scenario: two distinguishable lights, four
sub-frames. -/
def c2Sim : Simulator :=
  ((Simulator.init.setScene twoLightScene).setOutput pmdOutput).setPipeline
    noSubTimePipe

/-! ## Helper lemmas: sorted keyframe lists and the binary search -/

/-- Strict sortedness, index form. -/
theorem sorted_get_lt {kfs : List Keyframe} (hsrt : KeyframesSorted kfs)
    {i j : Nat} (hi : i < kfs.length) (hj : j < kfs.length) (hij : i < j) :
    (kfs.get ⟨i, hi⟩).t < (kfs.get ⟨j, hj⟩).t :=
  List.pairwise_iff_get.mp hsrt ⟨i, hi⟩ ⟨j, hj⟩ hij

/-- Timestamps identify indices in a sorted keyframe list. -/
theorem sorted_get_inj {kfs : List Keyframe} (hsrt : KeyframesSorted kfs)
    {i j : Nat} (hi : i < kfs.length) (hj : j < kfs.length)
    (ht : (kfs.get ⟨i, hi⟩).t = (kfs.get ⟨j, hj⟩).t) : i = j := by
  rcases Nat.lt_trichotomy i j with h | h | h
  · exact absurd ht (ne_of_lt (sorted_get_lt hsrt hi hj h))
  · exact h
  · exact absurd ht.symm (ne_of_lt (sorted_get_lt hsrt hj hi h))

/-- `kfGet` agrees with `List.get` in bounds. -/
theorem kfGet_eq_get {kfs : List Keyframe} {c : Int} (h0 : 0 ≤ c)
    (hc : c < (kfs.length : Int)) :
    kfGet kfs c = kfs.get ⟨c.toNat, by omega⟩ := by
  have hlt : c.toNat < kfs.length := by omega
  simp [kfGet, List.getD_eq_getElem _ _ hlt, List.get_eq_getElem,
    List.getElem?_eq_getElem hlt]

/-- Full characterization of the binary-search loop on a sorted keyframe
list: starting from a search interval `[a, b]` whose outside is already
classified against `t`, the loop either returns an exact hit `(c, c)` with
`kfs[c].t = t`, or returns adjacent indices `(lo, lo+1)` with every keyframe
at index `≤ lo` strictly earlier than `t` and every keyframe at index
`> lo` strictly later. -/
theorem findLoop_spec (kfs : List Keyframe) (t : Int) (hsrt : KeyframesSorted kfs) :
    ∀ (fuel : Nat) (a b : Int), 0 ≤ a → b < (kfs.length : Int) → a ≤ b + 1 →
    (b + 1 - a).toNat ≤ fuel →
    (∀ (j : Nat) (hj : j < kfs.length), (j : Int) < a → (kfs.get ⟨j, hj⟩).t < t) →
    (∀ (j : Nat) (hj : j < kfs.length), b < (j : Int) → t < (kfs.get ⟨j, hj⟩).t) →
    (∃ (c : Nat) (hc : c < kfs.length), findLoop kfs t fuel a b = ((c : Int), (c : Int)) ∧
        (kfs.get ⟨c, hc⟩).t = t) ∨
    (∃ lo : Int, findLoop kfs t fuel a b = (lo, lo + 1) ∧
        (∀ (j : Nat) (hj : j < kfs.length), (j : Int) ≤ lo → (kfs.get ⟨j, hj⟩).t < t) ∧
        (∀ (j : Nat) (hj : j < kfs.length), lo < (j : Int) → t < (kfs.get ⟨j, hj⟩).t)) := by
  intro fuel
  induction fuel with
  | zero =>
    intro a b _ _ hab hfuel hlow hhigh
    right
    refine ⟨b, by simp [findLoop]; omega, ?_, hhigh⟩
    intro j hj hjb
    exact hlow j hj (by omega)
  | succ fuel ih =>
    intro a b ha hb hab hfuel hlow hhigh
    by_cases hcase : a ≤ b
    case neg =>
      right
      refine ⟨b, by simp [findLoop, hcase]; omega, ?_, hhigh⟩
      intro j hj hjb
      exact hlow j hj (by omega)
    case pos =>
      have hac : a ≤ (a + b) / 2 := by omega
      have hcb : (a + b) / 2 ≤ b := by omega
      have hcn : ((a + b) / 2).toNat < kfs.length := by omega
      have hget : kfGet kfs ((a + b) / 2) = kfs.get ⟨((a + b) / 2).toNat, hcn⟩ :=
        kfGet_eq_get (by omega) (by omega)
      by_cases h1 : (kfs.get ⟨((a + b) / 2).toNat, hcn⟩).t < t
      · have hstep : findLoop kfs t (fuel + 1) a b
            = findLoop kfs t fuel ((a + b) / 2 + 1) b := by
          simp only [findLoop]
          rw [if_pos hcase, hget, if_pos h1]
        rw [hstep]
        refine ih ((a + b) / 2 + 1) b (by omega) hb (by omega) (by omega) ?_ hhigh
        intro j hj hja
        rcases lt_or_eq_of_le (show (j : Int) ≤ (a + b) / 2 by omega) with hlt | heq
        · exact lt_trans (sorted_get_lt hsrt hj hcn (by omega)) h1
        · have hje : j = ((a + b) / 2).toNat := by omega
          subst hje
          exact h1
      · by_cases h2 : t < (kfs.get ⟨((a + b) / 2).toNat, hcn⟩).t
        · have hstep : findLoop kfs t (fuel + 1) a b
              = findLoop kfs t fuel a ((a + b) / 2 - 1) := by
            simp only [findLoop]
            rw [if_pos hcase, hget, if_neg h1, if_pos h2]
          rw [hstep]
          refine ih a ((a + b) / 2 - 1) ha (by omega) (by omega) (by omega) hlow ?_
          intro j hj hja
          rcases lt_or_eq_of_le (show (a + b) / 2 ≤ (j : Int) by omega) with hlt | heq
          · exact lt_trans h2 (sorted_get_lt hsrt hcn hj (by omega))
          · have hje : j = ((a + b) / 2).toNat := by omega
            subst hje
            exact h2
        · left
          have ht : (kfs.get ⟨((a + b) / 2).toNat, hcn⟩).t = t := by omega
          refine ⟨((a + b) / 2).toNat, hcn, ?_, ht⟩
          have hcast : ((((a + b) / 2).toNat : Nat) : Int) = (a + b) / 2 := by omega
          simp only [findLoop]
          rw [if_pos hcase, hget, if_neg h1, if_neg h2, hcast]

/-- On a sorted list, the binary search finds an exact timestamp hit. -/
theorem findKeyframeIndices_exact {kfs : List Keyframe} {t : Int}
    (hsrt : KeyframesSorted kfs) {i : Nat} (hi : i < kfs.length)
    (ht : (kfs.get ⟨i, hi⟩).t = t) :
    findKeyframeIndices kfs t = ((i : Int), (i : Int)) := by
  have hspec := findLoop_spec kfs t hsrt (kfs.length + 1) 0 ((kfs.length : Int) - 1)
    (by omega) (by omega) (by omega) (by omega)
    (fun j hj h => absurd h (by omega)) (fun j hj h => absurd h (by omega))
  rcases hspec with ⟨c, hc, heq, htc⟩ | ⟨lo, _, hlt, hgt⟩
  · have hci : c = i := sorted_get_inj hsrt hc hi (by rw [htc, ht])
    subst hci
    exact heq
  · rcases le_or_lt ((i : Int)) lo with hle | hgtlo
    · exact absurd ht (ne_of_lt (hlt i hi hle))
    · exact absurd ht.symm (ne_of_lt (hgt i hi hgtlo))

/-- On a sorted list with no exact hit, the binary search returns adjacent
indices bracketing `t`. -/
theorem findKeyframeIndices_miss {kfs : List Keyframe} {t : Int}
    (hsrt : KeyframesSorted kfs)
    (hnone : ∀ (j : Nat) (hj : j < kfs.length), (kfs.get ⟨j, hj⟩).t ≠ t) :
    ∃ lo : Int, findKeyframeIndices kfs t = (lo, lo + 1) ∧
      (∀ (j : Nat) (hj : j < kfs.length), (j : Int) ≤ lo → (kfs.get ⟨j, hj⟩).t < t) ∧
      (∀ (j : Nat) (hj : j < kfs.length), lo < (j : Int) → t < (kfs.get ⟨j, hj⟩).t) := by
  have hspec := findLoop_spec kfs t hsrt (kfs.length + 1) 0 ((kfs.length : Int) - 1)
    (by omega) (by omega) (by omega) (by omega)
    (fun j hj h => absurd h (by omega)) (fun j hj h => absurd h (by omega))
  rcases hspec with ⟨c, hc, _, htc⟩ | h
  · exact absurd htc (hnone c hc)
  · exact h

/-- `QList::front()` is the keyframe at index 0. -/
theorem headD_eq_get {l : List Keyframe} (h : 0 < l.length) :
    l.headD default = l.get ⟨0, h⟩ := by
  cases l with
  | nil => exact absurd h (by simp)
  | cons k ks => rfl

/-- `QList::back()` is the keyframe at the last index. -/
theorem getLastD_eq_get {l : List Keyframe} (h : 0 < l.length) :
    l.getLastD default = l.get ⟨l.length - 1, by omega⟩ := by
  have hne : l ≠ [] := List.ne_nil_of_length_pos h
  rw [List.getLastD_eq_getLast? , List.getLast?_eq_getLast _ hne]
  simp [List.getLast_eq_getElem, List.get_eq_getElem]

/-- `startTime` of a nonempty animation is the first keyframe's timestamp. -/
theorem startTime_eq_get {an : Animation} (h : 0 < an.keyframes.length) :
    an.startTime = (an.keyframes.get ⟨0, h⟩).t := by
  rw [Animation.startTime, if_neg (by omega), headD_eq_get h]

/-- `endTime` of a nonempty animation is the last keyframe's timestamp. -/
theorem endTime_eq_get {an : Animation} (h : 0 < an.keyframes.length) :
    an.endTime = (an.keyframes.get ⟨an.keyframes.length - 1, by omega⟩).t := by
  rw [Animation.endTime, if_neg (by omega), getLastD_eq_get h]

/-- Every keyframe of a sorted animation is at or after the first one. -/
theorem sorted_startTime_le {an : Animation} (hsrt : KeyframesSorted an.keyframes)
    {j : Nat} (hj : j < an.keyframes.length) :
    an.startTime ≤ (an.keyframes.get ⟨j, hj⟩).t := by
  rw [startTime_eq_get (by omega)]
  rcases Nat.eq_zero_or_pos j with h0 | h0
  · subst h0
    exact le_refl _
  · exact le_of_lt (sorted_get_lt hsrt _ hj h0)

/-- Every keyframe of a sorted animation is at or before the last one. -/
theorem sorted_le_endTime {an : Animation} (hsrt : KeyframesSorted an.keyframes)
    {j : Nat} (hj : j < an.keyframes.length) :
    (an.keyframes.get ⟨j, hj⟩).t ≤ an.endTime := by
  rw [endTime_eq_get (by omega)]
  rcases Nat.lt_or_ge j (an.keyframes.length - 1) with h0 | h0
  · exact le_of_lt (sorted_get_lt hsrt hj _ h0)
  · have : j = an.keyframes.length - 1 := by omega
    subst this
    exact le_refl _

/-- `interpolate` at an exact keyframe timestamp returns that keyframe's
transformation unblended. -/
theorem interpolate_at_keyframe (slerp : SlerpFun) {an : Animation}
    (hsrt : KeyframesSorted an.keyframes) {t : Int} {i : Nat}
    (hi : i < an.keyframes.length) (ht : (an.keyframes.get ⟨i, hi⟩).t = t) :
    an.interpolate slerp t = (an.keyframes.get ⟨i, hi⟩).transformation := by
  have hlen : ¬ an.keyframes.length = 0 := by omega
  by_cases hstart : t ≤ an.startTime
  · -- the clamp branch returns the first keyframe, which must be keyframe i
    have h0 : (0 : Nat) < an.keyframes.length := by omega
    have hi0 : i = 0 := by
      by_contra hne
      have h0i : 0 < i := Nat.pos_of_ne_zero hne
      have := sorted_get_lt hsrt h0 hi h0i
      rw [startTime_eq_get h0] at hstart
      omega
    subst hi0
    rw [Animation.interpolate, if_neg hlen, if_pos hstart, headD_eq_get h0]
  · by_cases hend : an.endTime ≤ t
    · have hlast : an.keyframes.length - 1 < an.keyframes.length := by omega
      have hii : i = an.keyframes.length - 1 := by
        by_contra hne
        have hlt : i < an.keyframes.length - 1 := by omega
        have := sorted_get_lt hsrt hi hlast hlt
        rw [endTime_eq_get (by omega)] at hend
        omega
      rw [Animation.interpolate, if_neg hlen, if_neg hstart, if_pos hend,
        getLastD_eq_get (by omega)]
      subst hii
      rfl
    · rw [Animation.interpolate, if_neg hlen, if_neg hstart, if_neg hend]
      have hfind := findKeyframeIndices_exact hsrt hi ht
      rw [hfind]
      simp only [eq_self_iff_true, if_true]
      rw [kfGet_eq_get (by omega) (by omega)]
      simp [Int.toNat_natCast]

/-- `interpolate` strictly between two consecutive keyframes blends them at
`alpha = 1 - (t_hi - t) / (t_hi - t_lo)`. -/
theorem interpolate_between (slerp : SlerpFun) {an : Animation}
    (hsrt : KeyframesSorted an.keyframes) {t : Int} {i : Nat}
    (hi1 : i + 1 < an.keyframes.length)
    (hlo : (an.keyframes.get ⟨i, by omega⟩).t < t)
    (hhi : t < (an.keyframes.get ⟨i + 1, hi1⟩).t) :
    an.interpolate slerp t = Transformation.interpolate slerp
      (an.keyframes.get ⟨i, by omega⟩).transformation
      (an.keyframes.get ⟨i + 1, hi1⟩).transformation
      (1 - (((an.keyframes.get ⟨i + 1, hi1⟩).t - t : Int) : ℚ)
          / (((an.keyframes.get ⟨i + 1, hi1⟩).t - (an.keyframes.get ⟨i, by omega⟩).t : Int) : ℚ)) := by
  have hlen : ¬ an.keyframes.length = 0 := by omega
  have hstart : ¬ t ≤ an.startTime := by
    have := sorted_startTime_le hsrt (show i < an.keyframes.length by omega)
    omega
  have hend : ¬ an.endTime ≤ t := by
    have := sorted_le_endTime hsrt hi1
    omega
  have hnone : ∀ (j : Nat) (hj : j < an.keyframes.length),
      (an.keyframes.get ⟨j, hj⟩).t ≠ t := by
    intro j hj
    rcases Nat.lt_or_ge j (i + 1) with hle | hgt
    · have : (an.keyframes.get ⟨j, hj⟩).t ≤ (an.keyframes.get ⟨i, by omega⟩).t := by
        rcases Nat.lt_or_ge j i with h | h
        · exact le_of_lt (sorted_get_lt hsrt hj (by omega) h)
        · have : j = i := by omega
          subst this
          exact le_refl _
      omega
    · have : (an.keyframes.get ⟨i + 1, hi1⟩).t ≤ (an.keyframes.get ⟨j, hj⟩).t := by
        rcases Nat.lt_or_ge (i + 1) j with h | h
        · exact le_of_lt (sorted_get_lt hsrt hi1 hj h)
        · have : j = i + 1 := by omega
          subst this
          exact le_refl _
      omega
  rcases findKeyframeIndices_miss hsrt hnone with ⟨lo, hfind, hbelow, habove⟩
  have hloi : lo = (i : Int) := by
    rcases lt_trichotomy lo (i : Int) with h | h | h
    · have := habove i (by omega) h
      omega
    · exact h
    · have := hbelow (i + 1) hi1 (by omega)
      omega
  subst hloi
  rw [Animation.interpolate, if_neg hlen, if_neg hstart, if_neg hend, hfind]
  have hne : ¬ ((i : Int) = (i : Int) + 1) := by omega
  simp only [if_neg hne]
  rw [kfGet_eq_get (by omega) (by omega), kfGet_eq_get (by omega) (by omega)]
  congr 1

/-- Membership in a `take` prefix, index form. -/
theorem mem_take_get {l : List Keyframe} {pos : Nat} {u : Keyframe}
    (hu : u ∈ l.take pos) :
    ∃ (j : Nat) (hj : j < l.length), j < pos ∧ l.get ⟨j, hj⟩ = u := by
  rcases List.mem_iff_get.mp hu with ⟨⟨j, hj⟩, hju⟩
  have hj2 : j < pos ∧ j < l.length := by
    have := hj
    rw [List.length_take] at this
    omega
  refine ⟨j, hj2.2, hj2.1, ?_⟩
  rw [← hju]
  simp [List.get_eq_getElem, List.getElem_take]

/-- Membership in a `drop` suffix, index form. -/
theorem mem_drop_get {l : List Keyframe} {pos : Nat} {u : Keyframe}
    (hu : u ∈ l.drop pos) :
    ∃ (j : Nat) (hj : j < l.length), pos ≤ j ∧ l.get ⟨j, hj⟩ = u := by
  rcases List.mem_iff_get.mp hu with ⟨⟨j, hj⟩, hju⟩
  have hj2 : pos + j < l.length := by
    have := hj
    rw [List.length_drop] at this
    omega
  refine ⟨pos + j, hj2, by omega, ?_⟩
  rw [← hju]
  simp [List.get_eq_getElem, List.getElem_drop]

/-- `insertIdx` as prefix-element-suffix. -/
theorem insertIdx_eq_take_cons_drop {α : Type} (x : α) :
    ∀ (pos : Nat) (l : List α), pos ≤ l.length →
      l.insertIdx pos x = l.take pos ++ x :: l.drop pos
  | 0, l, _ => by simp
  | pos + 1, [], h => by simp at h
  | pos + 1, k :: ks, h => by
    simp only [List.insertIdx_succ_cons, List.take_succ_cons, List.drop_succ_cons,
      List.cons_append, List.cons.injEq, true_and]
    exact insertIdx_eq_take_cons_drop x pos ks (by simpa using h)

/-- Inserting a keyframe at a position that splits earlier from later
timestamps preserves sortedness. -/
theorem sorted_insertIdx {l : List Keyframe} {x : Keyframe} {pos : Nat}
    (hpos : pos ≤ l.length) (hsrt : KeyframesSorted l)
    (hbefore : ∀ (j : Nat) (hj : j < l.length), j < pos → (l.get ⟨j, hj⟩).t < x.t)
    (hafter : ∀ (j : Nat) (hj : j < l.length), pos ≤ j → x.t < (l.get ⟨j, hj⟩).t) :
    KeyframesSorted (l.insertIdx pos x) := by
  rw [insertIdx_eq_take_cons_drop x pos l hpos]
  rw [KeyframesSorted, List.pairwise_append]
  refine ⟨List.Pairwise.sublist (List.take_sublist _ _) hsrt, ?_, ?_⟩
  · rw [List.pairwise_cons]
    constructor
    · intro u hu
      rcases mem_drop_get hu with ⟨j, hj, hpj, hju⟩
      rw [← hju]
      exact hafter j hj hpj
    · exact List.Pairwise.sublist (List.drop_sublist _ _) hsrt
  · intro u hu v hv
    rcases mem_take_get hu with ⟨j, hj, hjp, hju⟩
    rcases List.mem_cons.mp hv with hvx | hvd
    · subst hvx
      rw [← hju]
      exact hbefore j hj hjp
    · rcases mem_drop_get hvd with ⟨j2, hj2, hpj2, hj2v⟩
      rw [← hju, ← hj2v]
      exact sorted_get_lt hsrt hj hj2 (by omega)

/-- Replacing a keyframe by one with the same timestamp preserves
sortedness. -/
theorem sorted_set {l : List Keyframe} {x : Keyframe} {j : Nat}
    (hj : j < l.length) (hsrt : KeyframesSorted l)
    (ht : x.t = (l.get ⟨j, hj⟩).t) :
    KeyframesSorted (l.set j x) := by
  rw [KeyframesSorted, List.pairwise_iff_get]
  intro i1 i2 h12
  have hls : (l.set j x).length = l.length := List.length_set l j x
  have hi1 := i1.isLt
  have hi2 := i2.isLt
  have hl1 : i1.val < l.length := by omega
  have hl2 : i2.val < l.length := by omega
  have hfi : (i1 : Nat) < (i2 : Nat) := h12
  simp only [List.get_eq_getElem, List.getElem_set]
  have horder : (l.get ⟨i1.val, hl1⟩).t < (l.get ⟨i2.val, hl2⟩).t :=
    sorted_get_lt hsrt hl1 hl2 hfi
  simp only [List.get_eq_getElem] at horder
  by_cases e1 : j = i1.val
  · by_cases e2 : j = i2.val
    · omega
    · rw [if_pos e1, if_neg e2, ht]
      have hfeq : (⟨j, hj⟩ : Fin l.length) = ⟨i1.val, hl1⟩ := by
        simp [e1]
      rw [hfeq]
      simp only [List.get_eq_getElem]
      exact horder
  · by_cases e2 : j = i2.val
    · rw [if_neg e1, if_pos e2, ht]
      have hfeq : (⟨j, hj⟩ : Fin l.length) = ⟨i2.val, hl2⟩ := by
        simp [e2]
      rw [hfeq]
      simp only [List.get_eq_getElem]
      exact horder
    · rw [if_neg e1, if_neg e2]
      exact horder

/-- A sorted animation with at least two keyframes spans a nonempty time
interval. -/
theorem sorted_start_lt_end {an : Animation} (hsrt : KeyframesSorted an.keyframes)
    (h2 : 1 < an.keyframes.length) : an.startTime < an.endTime := by
  have hse := sorted_get_lt hsrt (show 0 < an.keyframes.length by omega)
    (show an.keyframes.length - 1 < an.keyframes.length by omega) (by omega)
  rw [startTime_eq_get (by omega), endTime_eq_get (by omega)]
  exact hse

/-- `addKeyframe` preserves the sortedness invariant. -/
theorem addKeyframe_sorted {an : Animation} {kf : Keyframe}
    (hsrt : KeyframesSorted an.keyframes) :
    KeyframesSorted (an.addKeyframe kf).keyframes := by
  simp only [Animation.addKeyframe]
  by_cases h0 : an.keyframes.length = 0
  · rw [if_pos h0, List.length_eq_zero.mp h0]
    simp [KeyframesSorted]
  · rw [if_neg h0]
    by_cases hfast1 : an.endTime < kf.t
    · rw [if_pos hfast1]
      show KeyframesSorted (an.keyframes ++ [kf])
      rw [KeyframesSorted, List.pairwise_append]
      refine ⟨hsrt, by simp, ?_⟩
      intro u hu v hv
      rcases List.mem_iff_get.mp hu with ⟨⟨j, hj⟩, hju⟩
      rw [List.mem_singleton.mp hv, ← hju]
      exact lt_of_le_of_lt (sorted_le_endTime hsrt hj) hfast1
    · rw [if_neg hfast1]
      by_cases hfast2 : kf.t < an.startTime
      · rw [if_pos hfast2]
        show KeyframesSorted (kf :: an.keyframes)
        rw [KeyframesSorted, List.pairwise_cons]
        refine ⟨?_, hsrt⟩
        intro u hu
        rcases List.mem_iff_get.mp hu with ⟨⟨j, hj⟩, hju⟩
        rw [← hju]
        exact lt_of_lt_of_le hfast2 (sorted_startTime_le hsrt hj)
      · rw [if_neg hfast2]
        by_cases hex : ∃ (jj : Nat) (hjj : jj < an.keyframes.length),
            (an.keyframes.get ⟨jj, hjj⟩).t = kf.t
        · rcases hex with ⟨jj, hjj, hjt⟩
          have hfind := findKeyframeIndices_exact hsrt hjj hjt
          simp only [hfind, if_true]
          show KeyframesSorted (an.keyframes.set ((jj : Int)).toNat kf)
          have hcast : ((jj : Int)).toNat = jj := by omega
          rw [hcast]
          exact sorted_set hjj hsrt hjt.symm
        · push_neg at hex
          rcases findKeyframeIndices_miss hsrt hex with ⟨lo, hfind, hbelow, habove⟩
          simp only [hfind]
          rw [if_neg (by omega)]
          show KeyframesSorted (an.keyframes.insertIdx ((lo + 1)).toNat kf)
          have hlo0 : 0 ≤ lo := by
            by_contra hneg
            have := habove 0 (by omega) (by omega)
            rw [← startTime_eq_get (by omega)] at this
            omega
          have hlolen : lo < (an.keyframes.length : Int) - 1 := by
            by_contra hge
            have hlast : an.keyframes.length - 1 < an.keyframes.length := by omega
            have := hbelow (an.keyframes.length - 1) hlast (by omega)
            rw [← endTime_eq_get (by omega)] at this
            omega
          refine sorted_insertIdx (by omega) hsrt ?_ ?_
          · intro j hj hjp
            exact hbelow j hj (by omega)
          · intro j hj hjp
            exact habove j hj (by omega)

/-- Adding a keyframe at an already-present timestamp takes the overwrite
branch and leaves the length unchanged. -/
theorem addKeyframe_length_of_mem {an : Animation} {kf : Keyframe}
    (hsrt : KeyframesSorted an.keyframes)
    (hex : ∃ k ∈ an.keyframes, k.t = kf.t) :
    (an.addKeyframe kf).keyframes.length = an.keyframes.length := by
  rcases hex with ⟨k, hk, hkt⟩
  rcases List.mem_iff_get.mp hk with ⟨⟨jj, hjj⟩, hjk⟩
  have hjt : (an.keyframes.get ⟨jj, hjj⟩).t = kf.t := by rw [hjk, hkt]
  simp only [Animation.addKeyframe]
  rw [if_neg (by omega)]
  rw [if_neg (by rw [← hjt]; have := sorted_le_endTime hsrt hjj; omega)]
  rw [if_neg (by rw [← hjt]; have := sorted_startTime_le hsrt hjj; omega)]
  have hfind := findKeyframeIndices_exact hsrt hjj hjt
  simp only [hfind, if_true]
  exact List.length_set _ _ _

/-- C6: `Animation::interpolate(t)` clamps to the first keyframe's
transformation for `t` at or before the first keyframe time, clamps to the
last keyframe's transformation for `t` at or after the last keyframe time,
returns the exact keyframe's transformation unblended on a timestamp hit, and
otherwise blends the bracketing pair (linear translation/scale, `slerp`
rotation, via `Transformation.interpolate`) at
`alpha = 1 - (t_hi - t)/(t_hi - t_lo)`. -/
theorem interpolate_spec_C6 (slerp : SlerpFun) (an : Animation) (t : Int)
    (hsrt : KeyframesSorted an.keyframes) (hlen : 0 < an.keyframes.length) :
    (t ≤ an.startTime →
      an.interpolate slerp t = (an.keyframes.get ⟨0, hlen⟩).transformation) ∧
    (an.endTime ≤ t →
      an.interpolate slerp t
        = (an.keyframes.get ⟨an.keyframes.length - 1, by omega⟩).transformation) ∧
    (∀ (i : Nat) (hi : i < an.keyframes.length), (an.keyframes.get ⟨i, hi⟩).t = t →
      an.interpolate slerp t = (an.keyframes.get ⟨i, hi⟩).transformation) ∧
    (∀ (i : Nat) (hi1 : i + 1 < an.keyframes.length),
      (an.keyframes.get ⟨i, by omega⟩).t < t →
      t < (an.keyframes.get ⟨i + 1, hi1⟩).t →
      an.interpolate slerp t = Transformation.interpolate slerp
        (an.keyframes.get ⟨i, by omega⟩).transformation
        (an.keyframes.get ⟨i + 1, hi1⟩).transformation
        (1 - (((an.keyframes.get ⟨i + 1, hi1⟩).t - t : Int) : ℚ)
            / (((an.keyframes.get ⟨i + 1, hi1⟩).t
                - (an.keyframes.get ⟨i, by omega⟩).t : Int) : ℚ))) := by
  refine ⟨?_, ?_, ?_, ?_⟩
  · intro hstart
    rw [Animation.interpolate, if_neg (by omega), if_pos hstart, headD_eq_get hlen]
  · intro hend
    by_cases hstart : t ≤ an.startTime
    · -- both clamps apply only when the animation has a single keyframe
      have h1 : an.keyframes.length = 1 := by
        by_contra hne
        have := sorted_start_lt_end hsrt (by omega)
        omega
      rw [Animation.interpolate, if_neg (by omega), if_pos hstart, headD_eq_get hlen]
      congr 1
      congr 1
      apply Fin.ext
      show (0 : Nat) = an.keyframes.length - 1
      omega
    · rw [Animation.interpolate, if_neg (by omega), if_neg hstart, if_pos hend,
        getLastD_eq_get hlen]
  · intro i hi ht
    exact interpolate_at_keyframe slerp hsrt hi ht
  · intro i hi1 hlo hhi
    exact interpolate_between slerp hsrt hi1 hlo hhi

/-- Witness for C6 at a concrete two-keyframe animation and an interior
time. -/
theorem interpolate_spec_C6_witness :
    (Animation.mk [⟨0, Transformation.identity⟩,
        ⟨4, ⟨⟨1, 0, 0⟩, Quat.one, Vec3.ones⟩⟩]).interpolate constSlerp 3
      = Transformation.interpolate constSlerp Transformation.identity
          ⟨⟨1, 0, 0⟩, Quat.one, Vec3.ones⟩ (1 - ((4 - 3 : Int) : ℚ) / ((4 - 0 : Int) : ℚ)) :=
  (interpolate_spec_C6 constSlerp
    (Animation.mk [⟨0, Transformation.identity⟩, ⟨4, ⟨⟨1, 0, 0⟩, Quat.one, Vec3.ones⟩⟩]) 3
    (by decide) (by decide)).2.2.2 0 (by decide) (by decide) (by decide)

/-- C7: starting from a sorted keyframe list, `addKeyframe` keeps the list
sorted by strictly ascending timestamp (hence at most one keyframe per
timestamp); adding at an already-present timestamp overwrites, leaving the
length unchanged; and any sequence of `addKeyframe` calls from a sorted
animation ends sorted. -/
theorem addKeyframe_invariant_C7 (an : Animation) (kf : Keyframe)
    (hsrt : KeyframesSorted an.keyframes) :
    KeyframesSorted (an.addKeyframe kf).keyframes ∧
    ((∃ k ∈ an.keyframes, k.t = kf.t) →
      (an.addKeyframe kf).keyframes.length = an.keyframes.length) ∧
    (∀ kfl : List Keyframe,
      KeyframesSorted ((kfl.foldl Animation.addKeyframe an).keyframes)) := by
  refine ⟨addKeyframe_sorted hsrt, addKeyframe_length_of_mem hsrt, ?_⟩
  intro kfl
  induction kfl generalizing an with
  | nil => exact hsrt
  | cons k ks ih => exact ih (an.addKeyframe k) (addKeyframe_sorted hsrt)

/-- Witness for C7: overwriting the middle keyframe of a concrete
three-keyframe animation. -/
theorem addKeyframe_invariant_C7_witness :
    KeyframesSorted ((Animation.mk [⟨0, Transformation.identity⟩,
        ⟨2, Transformation.identity⟩, ⟨5, Transformation.identity⟩]).addKeyframe
        ⟨2, ⟨⟨1, 0, 0⟩, Quat.one, Vec3.ones⟩⟩).keyframes ∧
    ((Animation.mk [⟨0, Transformation.identity⟩, ⟨2, Transformation.identity⟩,
        ⟨5, Transformation.identity⟩]).addKeyframe
        ⟨2, ⟨⟨1, 0, 0⟩, Quat.one, Vec3.ones⟩⟩).keyframes.length = 3 := by
  have h := addKeyframe_invariant_C7
    (Animation.mk [⟨0, Transformation.identity⟩, ⟨2, Transformation.identity⟩,
      ⟨5, Transformation.identity⟩])
    ⟨2, ⟨⟨1, 0, 0⟩, Quat.one, Vec3.ones⟩⟩ (by decide)
  exact ⟨h.1, h.2.1 ⟨⟨2, Transformation.identity⟩, by decide, by decide⟩⟩

/-- C9: interpolating an animation with zero keyframes returns the identity
transformation (zero translation, identity rotation, unit scale) for every
time, and never fails. -/
theorem interpolate_empty_C9 (slerp : SlerpFun) (an : Animation) (t : Int)
    (h : an.keyframes = []) :
    an.interpolate slerp t = Transformation.identity := by
  rw [Animation.interpolate, if_pos (by rw [h]; rfl)]

/-- Witness for C9 at the empty animation and an arbitrary concrete time. -/
theorem interpolate_empty_C9_witness :
    (Animation.mk []).interpolate constSlerp 12345 = Transformation.identity :=
  interpolate_empty_C9 constSlerp (Animation.mk []) 12345 rfl

/-! ## Timestamp scheduler lemmas -/

/-- One step of the start-time fold. -/
theorem foldStart_cons (a : Animation) (as : List Animation) (init : Int) :
    Simulator.foldStart init (a :: as)
      = Simulator.foldStart (if a.startTime < init then a.startTime else init) as :=
  rfl

/-- One step of the end-time fold. -/
theorem foldEnd_cons (a : Animation) (as : List Animation) (init : Int) :
    Simulator.foldEnd init (a :: as)
      = Simulator.foldEnd (if init < a.endTime then a.endTime else init) as :=
  rfl

/-- The start-time fold never exceeds its seed. -/
theorem foldStart_le_init (l : List Animation) (init : Int) :
    Simulator.foldStart init l ≤ init := by
  induction l generalizing init with
  | nil => exact le_refl _
  | cons a as ih =>
    rw [foldStart_cons]
    refine le_trans (ih _) ?_
    split <;> omega

/-- The start-time fold is a lower bound for every list element. -/
theorem foldStart_le_mem : ∀ (l : List Animation) (init : Int) {an : Animation},
    an ∈ l → Simulator.foldStart init l ≤ an.startTime
  | [], _, an, h => absurd h (by simp)
  | a :: as, init, an, h => by
    rw [foldStart_cons]
    rcases List.mem_cons.mp h with rfl | hmem
    · refine le_trans (foldStart_le_init as _) ?_
      split <;> omega
    · exact foldStart_le_mem as _ hmem

/-- The start-time fold attains its seed or some element. -/
theorem foldStart_attained (l : List Animation) (init : Int) :
    Simulator.foldStart init l = init
      ∨ ∃ an ∈ l, Simulator.foldStart init l = an.startTime := by
  induction l generalizing init with
  | nil => exact Or.inl rfl
  | cons a as ih =>
    rw [foldStart_cons]
    rcases ih (if a.startTime < init then a.startTime else init) with h | ⟨an, hmem, hval⟩
    · rw [h]
      by_cases hlt : a.startTime < init
      · exact Or.inr ⟨a, by simp, by rw [if_pos hlt]⟩
      · exact Or.inl (by rw [if_neg hlt])
    · exact Or.inr ⟨an, by simp [hmem], hval⟩

/-- The end-time fold never falls below its seed. -/
theorem foldEnd_ge_init (l : List Animation) (init : Int) :
    init ≤ Simulator.foldEnd init l := by
  induction l generalizing init with
  | nil => exact le_refl _
  | cons a as ih =>
    rw [foldEnd_cons]
    refine le_trans ?_ (ih _)
    split <;> omega

/-- The end-time fold is an upper bound for every list element. -/
theorem foldEnd_ge_mem : ∀ (l : List Animation) (init : Int) {an : Animation},
    an ∈ l → an.endTime ≤ Simulator.foldEnd init l
  | [], _, an, h => absurd h (by simp)
  | a :: as, init, an, h => by
    rw [foldEnd_cons]
    rcases List.mem_cons.mp h with rfl | hmem
    · refine le_trans ?_ (foldEnd_ge_init as _)
      split <;> omega
    · exact foldEnd_ge_mem as _ hmem

/-- The end-time fold attains its seed or some element. -/
theorem foldEnd_attained (l : List Animation) (init : Int) :
    Simulator.foldEnd init l = init
      ∨ ∃ an ∈ l, Simulator.foldEnd init l = an.endTime := by
  induction l generalizing init with
  | nil => exact Or.inl rfl
  | cons a as ih =>
    rw [foldEnd_cons]
    rcases ih (if init < a.endTime then a.endTime else init) with h | ⟨an, hmem, hval⟩
    · rw [h]
      by_cases hlt : init < a.endTime
      · exact Or.inr ⟨a, by simp, by rw [if_pos hlt]⟩
      · exact Or.inl (by rw [if_neg hlt])
    · exact Or.inr ⟨an, by simp [hmem], hval⟩

/-- Resolving the timestamp cache clears its dirty flag. -/
theorem recreate_clears_flag (s : Simulator) :
    (s.recreateTimestampsIfNecessary).recreateTimestamps = false := by
  by_cases h : s.recreateTimestamps <;>
    simp [Simulator.recreateTimestampsIfNecessary, h]

/-- With a clean timestamp cache the resolution step is the identity. -/
theorem recreate_not_dirty {s : Simulator} (h : s.recreateTimestamps = false) :
    s.recreateTimestampsIfNecessary = s := by
  simp [Simulator.recreateTimestampsIfNecessary, h]

/-- The recomputed start bound, dirty case. -/
theorem recreate_start {s : Simulator} (hd : s.recreateTimestamps = true) :
    (s.recreateTimestampsIfNecessary).startTimestampC
      = Simulator.foldStart
          (Simulator.foldStart s.cameraAnimation.startTime s.scene.lightAnimations)
          s.scene.objectAnimations := by
  simp [Simulator.recreateTimestampsIfNecessary, hd]

/-- The recomputed end bound, dirty case. -/
theorem recreate_end {s : Simulator} (hd : s.recreateTimestamps = true) :
    (s.recreateTimestampsIfNecessary).endTimestampC
      = Simulator.foldEnd
          (Simulator.foldEnd s.cameraAnimation.endTime s.scene.lightAnimations)
          s.scene.objectAnimations := by
  simp [Simulator.recreateTimestampsIfNecessary, hd]

/-- Timestamp resolution only touches the timestamp cache fields. -/
theorem recreate_preserves (s : Simulator) :
    (s.recreateTimestampsIfNecessary).cameraAnimation = s.cameraAnimation ∧
    (s.recreateTimestampsIfNecessary).scene = s.scene ∧
    (s.recreateTimestampsIfNecessary).chipTiming = s.chipTiming ∧
    (s.recreateTimestampsIfNecessary).output = s.output := by
  by_cases h : s.recreateTimestamps <;>
    simp [Simulator.recreateTimestampsIfNecessary, h]

/-- C8: with the timestamp cache marked dirty (as every animation-affecting
setter leaves it), `startTimestamp()` returns exactly the minimum of the
camera animation's start time and of every light and object animation's start
time, `endTimestamp()` the corresponding maximum; and the setters
`setCameraAnimation`, `setScene`, `setChipTiming` all mark the cache dirty,
so the next query reflects the new animations. -/
theorem timestamp_bounds_C8 (s : Simulator) (hd : s.recreateTimestamps = true) :
    ((s.startTimestamp).1 ≤ s.cameraAnimation.startTime ∧
     (∀ an ∈ s.scene.lightAnimations, (s.startTimestamp).1 ≤ an.startTime) ∧
     (∀ an ∈ s.scene.objectAnimations, (s.startTimestamp).1 ≤ an.startTime) ∧
     ((s.startTimestamp).1 = s.cameraAnimation.startTime ∨
      (∃ an ∈ s.scene.lightAnimations, (s.startTimestamp).1 = an.startTime) ∨
      (∃ an ∈ s.scene.objectAnimations, (s.startTimestamp).1 = an.startTime))) ∧
    (s.cameraAnimation.endTime ≤ (s.endTimestamp).1 ∧
     (∀ an ∈ s.scene.lightAnimations, an.endTime ≤ (s.endTimestamp).1) ∧
     (∀ an ∈ s.scene.objectAnimations, an.endTime ≤ (s.endTimestamp).1) ∧
     ((s.endTimestamp).1 = s.cameraAnimation.endTime ∨
      (∃ an ∈ s.scene.lightAnimations, (s.endTimestamp).1 = an.endTime) ∨
      (∃ an ∈ s.scene.objectAnimations, (s.endTimestamp).1 = an.endTime))) ∧
    (∀ a : Animation, (s.setCameraAnimation a).recreateTimestamps = true) ∧
    (∀ sc : Scene, (s.setScene sc).recreateTimestamps = true) ∧
    (∀ ct : ChipTiming, (s.setChipTiming ct).recreateTimestamps = true) := by
  have hs : (s.startTimestamp).1
      = Simulator.foldStart
          (Simulator.foldStart s.cameraAnimation.startTime s.scene.lightAnimations)
          s.scene.objectAnimations := recreate_start hd
  have he : (s.endTimestamp).1
      = Simulator.foldEnd
          (Simulator.foldEnd s.cameraAnimation.endTime s.scene.lightAnimations)
          s.scene.objectAnimations := recreate_end hd
  refine ⟨⟨?_, ?_, ?_, ?_⟩, ⟨?_, ?_, ?_, ?_⟩, fun a => rfl, fun sc => rfl, fun ct => rfl⟩
  · rw [hs]
    exact le_trans (foldStart_le_init _ _) (foldStart_le_init _ _)
  · intro an hmem
    rw [hs]
    exact le_trans (foldStart_le_init _ _) (foldStart_le_mem _ _ hmem)
  · intro an hmem
    rw [hs]
    exact foldStart_le_mem _ _ hmem
  · rw [hs]
    rcases foldStart_attained s.scene.objectAnimations
        (Simulator.foldStart s.cameraAnimation.startTime s.scene.lightAnimations) with
      h1 | ⟨an, hmem, hval⟩
    · rw [h1]
      rcases foldStart_attained s.scene.lightAnimations s.cameraAnimation.startTime with
        h2 | ⟨an, hmem, hval⟩
      · exact Or.inl h2
      · exact Or.inr (Or.inl ⟨an, hmem, hval⟩)
    · exact Or.inr (Or.inr ⟨an, hmem, hval⟩)
  · rw [he]
    exact le_trans (foldEnd_ge_init _ _) (foldEnd_ge_init _ _)
  · intro an hmem
    rw [he]
    exact le_trans (foldEnd_ge_mem _ _ hmem) (foldEnd_ge_init _ _)
  · intro an hmem
    rw [he]
    exact foldEnd_ge_mem _ _ hmem
  · rw [he]
    rcases foldEnd_attained s.scene.objectAnimations
        (Simulator.foldEnd s.cameraAnimation.endTime s.scene.lightAnimations) with
      h1 | ⟨an, hmem, hval⟩
    · rw [h1]
      rcases foldEnd_attained s.scene.lightAnimations s.cameraAnimation.endTime with
        h2 | ⟨an, hmem, hval⟩
      · exact Or.inl h2
      · exact Or.inr (Or.inl ⟨an, hmem, hval⟩)
    · exact Or.inr (Or.inr ⟨an, hmem, hval⟩)

/-- Witness for C8: the lower bound and dirty-flag conjuncts at a freshly
constructed simulator. -/
theorem timestamp_bounds_C8_witness :
    (Simulator.init.startTimestamp).1 ≤ Simulator.init.cameraAnimation.startTime ∧
    (Simulator.init.setChipTiming intChip).recreateTimestamps = true :=
  ⟨(timestamp_bounds_C8 Simulator.init rfl).1.1,
   (timestamp_bounds_C8 Simulator.init rfl).2.2.2.2 intChip⟩

/-- The start-time fold of a list of empty animations from seed 0 stays 0. -/
theorem foldStart_zero {l : List Animation} (h : ∀ an ∈ l, an.startTime = 0) :
    Simulator.foldStart 0 l = 0 := by
  induction l with
  | nil => rfl
  | cons a as ih =>
    rw [foldStart_cons, h a (by simp), if_neg (by omega)]
    exact ih (fun an hmem => h an (by simp [hmem]))

/-- The end-time fold of a list of empty animations from seed 0 stays 0. -/
theorem foldEnd_zero {l : List Animation} (h : ∀ an ∈ l, an.endTime = 0) :
    Simulator.foldEnd 0 l = 0 := by
  induction l with
  | nil => rfl
  | cons a as ih =>
    rw [foldEnd_cons, h a (by simp), if_neg (by omega)]
    exact ih (fun an hmem => h an (by simp [hmem]))

/-- C10: an `Animation` with zero keyframes has `startTime() = endTime() = 0`;
consequently a simulator whose camera animation and all scene light/object
animations are empty has `startTimestamp() = endTimestamp() = 0`, and the
documented frame loop (`for (t = startTimestamp(); t < endTimestamp();
t = nextFrameTimestamp()) simulate(t);`) executes zero `simulate` calls. -/
theorem static_scene_zero_frames_C10 (slerp : SlerpFun) (s : Simulator)
    (fuel : Nat) (hd : s.recreateTimestamps = true)
    (hc : s.cameraAnimation.keyframes = [])
    (hl : ∀ an ∈ s.scene.lightAnimations, an.keyframes = [])
    (ho : ∀ an ∈ s.scene.objectAnimations, an.keyframes = []) :
    (∀ an : Animation, an.keyframes = [] → an.startTime = 0 ∧ an.endTime = 0) ∧
    (s.startTimestamp).1 = 0 ∧ (s.endTimestamp).1 = 0 ∧
    (s.frameLoop slerp fuel).1 = 0 := by
  have hempty : ∀ an : Animation, an.keyframes = [] →
      an.startTime = 0 ∧ an.endTime = 0 := by
    intro an h
    constructor
    · rw [Animation.startTime, if_pos (by rw [h]; rfl)]
    · rw [Animation.endTime, if_pos (by rw [h]; rfl)]
  have hstart : (s.startTimestamp).1 = 0 := by
    have h1 : (s.startTimestamp).1
        = Simulator.foldStart
            (Simulator.foldStart s.cameraAnimation.startTime s.scene.lightAnimations)
            s.scene.objectAnimations := recreate_start hd
    rw [h1, (hempty _ hc).1,
      foldStart_zero (fun an hmem => (hempty _ (hl an hmem)).1),
      foldStart_zero (fun an hmem => (hempty _ (ho an hmem)).1)]
  have hend : (s.endTimestamp).1 = 0 := by
    have h1 : (s.endTimestamp).1
        = Simulator.foldEnd
            (Simulator.foldEnd s.cameraAnimation.endTime s.scene.lightAnimations)
            s.scene.objectAnimations := recreate_end hd
    rw [h1, (hempty _ hc).2,
      foldEnd_zero (fun an hmem => (hempty _ (hl an hmem)).2),
      foldEnd_zero (fun an hmem => (hempty _ (ho an hmem)).2)]
  refine ⟨hempty, hstart, hend, ?_⟩
  cases fuel with
  | zero => rfl
  | succ fuel =>
    show (frameLoopGo slerp (fuel + 1) (s.recreateTimestampsIfNecessary)
      ((s.recreateTimestampsIfNecessary).startTimestampC)).1 = 0
    have hrec : (s.recreateTimestampsIfNecessary).recreateTimestampsIfNecessary
        = s.recreateTimestampsIfNecessary := recreate_not_dirty (recreate_clears_flag s)
    have hstartC : (s.recreateTimestampsIfNecessary).startTimestampC = 0 := hstart
    have hendC : (s.recreateTimestampsIfNecessary).endTimestampC = 0 := hend
    simp only [frameLoopGo, Simulator.endTimestamp, hrec]
    rw [if_neg (by rw [hstartC, hendC]; omega)]

/-- Witness for C10: a freshly constructed simulator (empty camera animation,
empty scene) simulates zero frames under the documented loop. -/
theorem static_scene_zero_frames_C10_witness :
    (Simulator.init.frameLoop constSlerp 3).1 = 0 :=
  (static_scene_zero_frames_C10 constSlerp Simulator.init 3 rfl rfl
    (by simp [Simulator.init, Scene.init]) (by simp [Simulator.init, Scene.init])).2.2.2

/-! ## Frame duration -/

/-- `cppTrunc` is the floor on nonnegative values. -/
theorem cppTrunc_of_nonneg {q : ℚ} (h : 0 ≤ q) : cppTrunc q = ⌊q⌋ := by
  rw [cppTrunc, if_neg (not_lt.mpr h)]

/-- C5: for every configuration with nonnegative chip times,
`frameDuration()` equals `subFrames()` times the (microsecond-truncated)
sub-frame duration `(exposureTime + readoutTime) * 1e6` plus the
(microsecond-truncated) `pauseTime * 1e6`, and `subFrames()` is 4 exactly
when PMD output is enabled, else 1. -/
theorem frame_duration_law_C5 (s : Simulator)
    (he : 0 ≤ s.chipTiming.exposureTime + s.chipTiming.readoutTime)
    (hp : 0 ≤ s.chipTiming.pauseTime) :
    s.frameDuration
      = s.subFrames
          * cppTrunc ((s.chipTiming.exposureTime + s.chipTiming.readoutTime) * 1000000)
        + cppTrunc (s.chipTiming.pauseTime * 1000000) ∧
    (s.subFrames = 4 ↔ s.output.pmd = true) ∧
    (s.output.pmd = false → s.subFrames = 1) := by
  have hsfd : s.subFrameDuration
      = ⌊(s.chipTiming.exposureTime + s.chipTiming.readoutTime) * 1000000⌋ := by
    rw [Simulator.subFrameDuration, ChipTiming.subFrameDuration,
      cppTrunc_of_nonneg (mul_nonneg he (by norm_num))]
  have hsfpos : (0 : Int) < s.subFrames := by
    rw [Simulator.subFrames]
    split <;> norm_num
  have hk : (0 : Int) ≤ s.subFrameDuration * s.subFrames := by
    apply mul_nonneg
    · rw [hsfd]
      exact Int.floor_nonneg.mpr (mul_nonneg he (by norm_num))
    · omega
  have hx : (0 : ℚ) ≤ s.chipTiming.pauseTime * 1000000 := mul_nonneg hp (by norm_num)
  refine ⟨?_, ?_, ?_⟩
  · rw [Simulator.frameDuration,
      cppTrunc_of_nonneg (add_nonneg (by exact_mod_cast hk) hx),
      Int.floor_int_add, cppTrunc_of_nonneg hx, hsfd,
      cppTrunc_of_nonneg (mul_nonneg he (by norm_num))]
    ring
  · rw [Simulator.subFrames]
    by_cases hpmd : s.output.pmd = true <;> simp [hpmd]
  · intro hpmd
    simp [Simulator.subFrames, hpmd]

/-- Witness for C5 at a concrete all-zero chip timing. -/
theorem frame_duration_law_C5_witness :
    (Simulator.init.setChipTiming ⟨0, 0, 0⟩).frameDuration
      = (Simulator.init.setChipTiming ⟨0, 0, 0⟩).subFrames
          * cppTrunc (((Simulator.init.setChipTiming ⟨0, 0, 0⟩).chipTiming.exposureTime
              + (Simulator.init.setChipTiming ⟨0, 0, 0⟩).chipTiming.readoutTime) * 1000000)
        + cppTrunc ((Simulator.init.setChipTiming ⟨0, 0, 0⟩).chipTiming.pauseTime * 1000000) :=
  (frame_duration_law_C5 (Simulator.init.setChipTiming ⟨0, 0, 0⟩)
    (by norm_num [Simulator.setChipTiming]) (by norm_num [Simulator.setChipTiming])).1

/-! ## Next-frame sequencing -/

/-- A successful shader resolution only (possibly) clears the shader dirty
flag. -/
theorem recreateShaders_ok {s s2 : Simulator}
    (h : s.recreateShadersIfNecessary = .ok s2) :
    s2 = s ∨ s2 = { s with recreateShaders := false } := by
  rw [Simulator.recreateShadersIfNecessary] at h
  by_cases hd : s.recreateShaders
  · rw [if_pos hd] at h
    rcases hs : s.sanityCheck with _ | e
    · rw [hs] at h
      simp at h
      exact Or.inr h.symm
    · rw [hs] at h
      simp at h
  · rw [if_neg hd] at h
    simp at h
    exact Or.inl h.symm

/-- Fields of the post-state of a successful `simulate` call: the timestamp
dirty flag, chip timing and output configuration are untouched, and the
frame is recorded as the last one. -/
theorem simulate_ok_fields {slerp : SlerpFun} {s s1 : Simulator} {t : Int}
    (h : s.simulate slerp t = .ok s1) :
    s1.recreateTimestamps = s.recreateTimestamps ∧
    s1.chipTiming = s.chipTiming ∧ s1.output = s.output ∧
    s1.haveLastFrameTimestamp = true ∧ s1.lastFrameTimestamp = t := by
  rw [Simulator.simulate] at h
  rcases hr : s.recreateShadersIfNecessary with e | s2
  · rw [hr] at h
    simp at h
  · rw [hr] at h
    simp only [Except.ok.injEq] at h
    rcases recreateShaders_ok hr with h2 | h2
    · subst h2
      rw [← h]
      by_cases ho : s2.recreateOutput = true <;>
        simp [Simulator.recreateOutputIfNecessary, Simulator.simulateTimestamps, ho]
    · subst h2
      rw [← h]
      by_cases ho : s.recreateOutput = true <;>
        simp [Simulator.recreateOutputIfNecessary, Simulator.simulateTimestamps, ho]

/-- `frameDuration` only depends on the chip timing and the output flags. -/
theorem frameDuration_congr {s1 s2 : Simulator} (hct : s1.chipTiming = s2.chipTiming)
    (ho : s1.output = s2.output) : s1.frameDuration = s2.frameDuration := by
  rw [Simulator.frameDuration, Simulator.frameDuration, Simulator.subFrameDuration,
    Simulator.subFrameDuration, Simulator.subFrames, Simulator.subFrames, hct, ho]

/-- C1 (amended): provided the timestamp cache is clean when the call is
made (`recreateTimestamps = false`, as holds throughout the documented frame
loop, where every `simulate` is preceded by a timestamp query),
`nextFrameTimestamp()` returns `startTimestamp()` if no frame has been
simulated since the cache was computed, else
`lastFrameTimestamp + frameDuration()`; and after a successful `simulate(t)`
from such a state, the next `nextFrameTimestamp()` returns
`t + frameDuration()`.  Without the proviso the property fails: the lazy
recomputation inside `nextFrameTimestamp()` also forgets the last simulated
frame (see the counterexample). -/
theorem nextFrameTimestamp_sequencing_C1 (slerp : SlerpFun) (s : Simulator)
    (t : Int) (hclean : s.recreateTimestamps = false) :
    (s.haveLastFrameTimestamp = false →
      (s.nextFrameTimestamp).1 = (s.startTimestamp).1) ∧
    (s.haveLastFrameTimestamp = true →
      (s.nextFrameTimestamp).1 = s.lastFrameTimestamp + s.frameDuration) ∧
    (∀ s1 : Simulator, s.simulate slerp t = .ok s1 →
      (s1.nextFrameTimestamp).1 = t + s.frameDuration) := by
  refine ⟨?_, ?_, ?_⟩
  · intro hnolast
    simp [Simulator.nextFrameTimestamp, Simulator.startTimestamp,
      recreate_not_dirty hclean, hnolast]
  · intro hlast
    simp [Simulator.nextFrameTimestamp, recreate_not_dirty hclean, hlast]
  · intro s1 h
    rcases simulate_ok_fields h with ⟨hrt, hct, ho, hlast, hts⟩
    have hclean1 : s1.recreateTimestamps = false := by rw [hrt, hclean]
    simp [Simulator.nextFrameTimestamp, recreate_not_dirty hclean1, hlast, hts,
      frameDuration_congr hct ho]

/-- Witness for C1: the amended sequencing law at a concrete resolved
simulator and `t = 7`. -/
theorem nextFrameTimestamp_sequencing_C1_witness :
    ((simOk ((c1Sim.recreateTimestampsIfNecessary).simulate constSlerp 7)).nextFrameTimestamp).1
      = 7 + (c1Sim.recreateTimestampsIfNecessary).frameDuration :=
  (nextFrameTimestamp_sequencing_C1 constSlerp c1Sim.recreateTimestampsIfNecessary 7
    (by decide)).2.2
    (simOk ((c1Sim.recreateTimestampsIfNecessary).simulate constSlerp 7)) (by rfl)

/-- `frameDuration` of any simulator carrying `intChip` and non-PMD output is
exactly 1000000 microseconds. -/
theorem frameDuration_intChip {s : Simulator} (h : s.chipTiming = intChip)
    (hp : s.output.pmd = false) : s.frameDuration = 1000000 := by
  have h1 : s.subFrameDuration = 1000000 := by
    rw [Simulator.subFrameDuration, h]
    norm_num [ChipTiming.subFrameDuration, intChip, cppTrunc]
  rw [Simulator.frameDuration, h, h1, Simulator.subFrames, hp]
  norm_num [intChip, cppTrunc]

/-- C1 (counterexample): on a freshly configured simulator, calling
`simulate(0)` directly and then `nextFrameTimestamp()` — with no intervening
configuration change — returns `startTimestamp()` (= 0), not
`0 + frameDuration()` (= 1000000): the pending timestamp recomputation
triggered inside `nextFrameTimestamp()` discards `_lastFrameTimestamp`. -/
theorem nextFrameTimestamp_sequencing_C1_counterexample :
    isFatal (c1Sim.simulate constSlerp 0) = false ∧
    ((simOk (c1Sim.simulate constSlerp 0)).nextFrameTimestamp).1 = 0 ∧
    ¬ (((simOk (c1Sim.simulate constSlerp 0)).nextFrameTimestamp).1
        = 0 + (simOk (c1Sim.simulate constSlerp 0)).frameDuration) := by
  refine ⟨by decide, by decide, ?_⟩
  have h1 : ((simOk (c1Sim.simulate constSlerp 0)).nextFrameTimestamp).1 = 0 := by decide
  have h2 : (simOk (c1Sim.simulate constSlerp 0)).frameDuration = 1000000 :=
    frameDuration_intChip (by decide) (by decide)
  omega

/-! ## Fatal configuration checks -/

/-- If the sanity-check cascade passes, every checked condition holds. -/
theorem sanityCheck_none_sound {s : Simulator} (h : s.sanityCheck = none) :
    1 ≤ s.scene.lights ∧
    s.scene.lights = s.scene.lightAnimations.length ∧
    s.scene.objects = s.scene.objectAnimations.length ∧
    (1 ≤ s.pipeline.spatialSamplesWidth ∧ s.pipeline.spatialSamplesWidth % 2 = 1) ∧
    (1 ≤ s.pipeline.spatialSamplesHeight ∧ s.pipeline.spatialSamplesHeight % 2 = 1) ∧
    ¬ (s.pipeline.preprocLensDistortion = true ∧ s.pipeline.postprocLensDistortion = true) ∧
    ¬ (s.pipeline.postprocLensDistortion = true ∧
        (s.output.indices = true ∨ s.output.forwardFlow3D = true ∨
         s.output.forwardFlow2D = true ∨ s.output.backwardFlow3D = true ∨
         s.output.backwardFlow2D = true)) := by
  rw [Simulator.sanityCheck] at h
  split_ifs at h with h1 h2 h3 h4 h5 h6 h7 h8
  all_goals simp at h
  push_neg at h4
  refine ⟨by omega, by tauto, by tauto, ⟨by omega, by omega⟩, ⟨by omega, by omega⟩,
    by tauto, by tauto⟩

/-- C3: when `simulate()` resolves a changed configuration
(`recreateShaders` set), each of the fatal conditions of the claim — zero
lights, light/object animation count mismatch, spatial sample counts not odd
in both dimensions, both lens-distortion modes at once, post-process lens
distortion combined with indices or flow outputs — aborts the call before any
render pass or state update runs. -/
theorem fatal_config_errors_C3 (slerp : SlerpFun) (s : Simulator) (t : Int)
    (hdirty : s.recreateShaders = true)
    (hbad :
      s.scene.lights = 0 ∨
      s.scene.lights ≠ s.scene.lightAnimations.length ∨
      s.scene.objects ≠ s.scene.objectAnimations.length ∨
      ¬ (Odd s.pipeline.spatialSamplesWidth ∧ Odd s.pipeline.spatialSamplesHeight) ∨
      (s.pipeline.preprocLensDistortion = true ∧ s.pipeline.postprocLensDistortion = true) ∨
      (s.pipeline.postprocLensDistortion = true ∧
        (s.output.indices = true ∨ s.output.forwardFlow3D = true ∨
         s.output.forwardFlow2D = true ∨ s.output.backwardFlow3D = true ∨
         s.output.backwardFlow2D = true))) :
    isFatal (s.simulate slerp t) = true := by
  rcases hs : s.sanityCheck with _ | e
  · exfalso
    have hsound := sanityCheck_none_sound hs
    rcases hbad with hb | hb | hb | hb | hb | hb
    · omega
    · exact hb hsound.2.1
    · exact hb hsound.2.2.1
    · exact hb ⟨Int.odd_iff.mpr hsound.2.2.2.1.2, Int.odd_iff.mpr hsound.2.2.2.2.1.2⟩
    · exact hsound.2.2.2.2.2.1 hb
    · exact hsound.2.2.2.2.2.2 hb
  · simp [Simulator.simulate, Simulator.recreateShadersIfNecessary, hdirty, hs, isFatal]

/-- Witness for C3: a freshly constructed simulator has an empty light list,
and `simulate(0)` on it aborts. -/
theorem fatal_config_errors_C3_witness :
    isFatal (Simulator.init.simulate constSlerp 0) = true :=
  fatal_config_errors_C3 constSlerp Simulator.init 0 rfl (Or.inl rfl)

/-! ## Output accessor validity gating -/

/-- C4: every per-sub-frame output texture accessor returns the invalid
handle 0 (never an error) whenever its output kind is not enabled, or the
output configuration is dirty, or no frame has been simulated yet, or the
sub-frame index is outside `[-1, subFrames() - 1]`; and it returns a non-zero
handle only when all those validity conditions hold
(`haveValidOutput(i)` conjoined with the accessor's enable flag). -/
theorem output_accessor_validity_C4 (s : Simulator) (i : Int) :
    ((s.output.rgb = false ∨ s.recreateOutput = true ∨ s.haveLastFrameTimestamp = false
        ∨ i < -1 ∨ s.subFrames ≤ i) → s.getRGBTex i = 0) ∧
    (s.getRGBTex i ≠ 0 → s.output.rgb = true ∧ s.recreateOutput = false
        ∧ s.haveLastFrameTimestamp = true ∧ -1 ≤ i ∧ i < s.subFrames) ∧
    (((s.output.rgb && s.output.srgb) = false ∨ s.recreateOutput = true ∨ s.haveLastFrameTimestamp = false
        ∨ i < -1 ∨ s.subFrames ≤ i) → s.getSRGBTex i = 0) ∧
    (s.getSRGBTex i ≠ 0 → (s.output.rgb && s.output.srgb) = true ∧ s.recreateOutput = false
        ∧ s.haveLastFrameTimestamp = true ∧ -1 ≤ i ∧ i < s.subFrames) ∧
    ((s.output.pmd = false ∨ s.recreateOutput = true ∨ s.haveLastFrameTimestamp = false
        ∨ i < -1 ∨ s.subFrames ≤ i) → s.getPMDTex i = 0) ∧
    (s.getPMDTex i ≠ 0 → s.output.pmd = true ∧ s.recreateOutput = false
        ∧ s.haveLastFrameTimestamp = true ∧ -1 ≤ i ∧ i < s.subFrames) ∧
    ((s.output.eyeSpacePositions = false ∨ s.recreateOutput = true ∨ s.haveLastFrameTimestamp = false
        ∨ i < -1 ∨ s.subFrames ≤ i) → s.getEyeSpacePositionsTex i = 0) ∧
    (s.getEyeSpacePositionsTex i ≠ 0 → s.output.eyeSpacePositions = true ∧ s.recreateOutput = false
        ∧ s.haveLastFrameTimestamp = true ∧ -1 ≤ i ∧ i < s.subFrames) ∧
    ((s.output.customSpacePositions = false ∨ s.recreateOutput = true ∨ s.haveLastFrameTimestamp = false
        ∨ i < -1 ∨ s.subFrames ≤ i) → s.getCustomSpacePositionsTex i = 0) ∧
    (s.getCustomSpacePositionsTex i ≠ 0 → s.output.customSpacePositions = true ∧ s.recreateOutput = false
        ∧ s.haveLastFrameTimestamp = true ∧ -1 ≤ i ∧ i < s.subFrames) ∧
    ((s.output.eyeSpaceNormals = false ∨ s.recreateOutput = true ∨ s.haveLastFrameTimestamp = false
        ∨ i < -1 ∨ s.subFrames ≤ i) → s.getEyeSpaceNormalsTex i = 0) ∧
    (s.getEyeSpaceNormalsTex i ≠ 0 → s.output.eyeSpaceNormals = true ∧ s.recreateOutput = false
        ∧ s.haveLastFrameTimestamp = true ∧ -1 ≤ i ∧ i < s.subFrames) ∧
    ((s.output.customSpaceNormals = false ∨ s.recreateOutput = true ∨ s.haveLastFrameTimestamp = false
        ∨ i < -1 ∨ s.subFrames ≤ i) → s.getCustomSpaceNormalsTex i = 0) ∧
    (s.getCustomSpaceNormalsTex i ≠ 0 → s.output.customSpaceNormals = true ∧ s.recreateOutput = false
        ∧ s.haveLastFrameTimestamp = true ∧ -1 ≤ i ∧ i < s.subFrames) ∧
    ((s.output.depthAndRange = false ∨ s.recreateOutput = true ∨ s.haveLastFrameTimestamp = false
        ∨ i < -1 ∨ s.subFrames ≤ i) → s.getDepthAndRangeTex i = 0) ∧
    (s.getDepthAndRangeTex i ≠ 0 → s.output.depthAndRange = true ∧ s.recreateOutput = false
        ∧ s.haveLastFrameTimestamp = true ∧ -1 ≤ i ∧ i < s.subFrames) ∧
    ((s.output.indices = false ∨ s.recreateOutput = true ∨ s.haveLastFrameTimestamp = false
        ∨ i < -1 ∨ s.subFrames ≤ i) → s.getIndicesTex i = 0) ∧
    (s.getIndicesTex i ≠ 0 → s.output.indices = true ∧ s.recreateOutput = false
        ∧ s.haveLastFrameTimestamp = true ∧ -1 ≤ i ∧ i < s.subFrames) ∧
    ((s.output.forwardFlow3D = false ∨ s.recreateOutput = true ∨ s.haveLastFrameTimestamp = false
        ∨ i < -1 ∨ s.subFrames ≤ i) → s.getForwardFlow3DTex i = 0) ∧
    (s.getForwardFlow3DTex i ≠ 0 → s.output.forwardFlow3D = true ∧ s.recreateOutput = false
        ∧ s.haveLastFrameTimestamp = true ∧ -1 ≤ i ∧ i < s.subFrames) ∧
    ((s.output.forwardFlow2D = false ∨ s.recreateOutput = true ∨ s.haveLastFrameTimestamp = false
        ∨ i < -1 ∨ s.subFrames ≤ i) → s.getForwardFlow2DTex i = 0) ∧
    (s.getForwardFlow2DTex i ≠ 0 → s.output.forwardFlow2D = true ∧ s.recreateOutput = false
        ∧ s.haveLastFrameTimestamp = true ∧ -1 ≤ i ∧ i < s.subFrames) ∧
    ((s.output.backwardFlow3D = false ∨ s.recreateOutput = true ∨ s.haveLastFrameTimestamp = false
        ∨ i < -1 ∨ s.subFrames ≤ i) → s.getBackwardFlow3DTex i = 0) ∧
    (s.getBackwardFlow3DTex i ≠ 0 → s.output.backwardFlow3D = true ∧ s.recreateOutput = false
        ∧ s.haveLastFrameTimestamp = true ∧ -1 ≤ i ∧ i < s.subFrames) ∧
    ((s.output.backwardFlow2D = false ∨ s.recreateOutput = true ∨ s.haveLastFrameTimestamp = false
        ∨ i < -1 ∨ s.subFrames ≤ i) → s.getBackwardFlow2DTex i = 0) ∧
    (s.getBackwardFlow2DTex i ≠ 0 → s.output.backwardFlow2D = true ∧ s.recreateOutput = false
        ∧ s.haveLastFrameTimestamp = true ∧ -1 ≤ i ∧ i < s.subFrames) := by
  have hvalid : s.haveValidOutput i = true ↔
      (s.recreateOutput = false ∧ s.haveLastFrameTimestamp = true
        ∧ -1 ≤ i ∧ i < s.subFrames) := by
    simp [Simulator.haveValidOutput, Bool.and_eq_true, decide_eq_true_eq,
      Bool.not_eq_true']
    tauto
  have gate : ∀ (flag : Bool) (body : Nat),
      ((flag = false ∨ s.recreateOutput = true ∨ s.haveLastFrameTimestamp = false
          ∨ i < -1 ∨ s.subFrames ≤ i) →
        (if flag && s.haveValidOutput i then body else 0) = 0) ∧
      ((if flag && s.haveValidOutput i then body else 0) ≠ 0 →
        flag = true ∧ s.recreateOutput = false ∧ s.haveLastFrameTimestamp = true
          ∧ -1 ≤ i ∧ i < s.subFrames) := by
    intro flag body
    by_cases hf : flag = true
    · by_cases hv : s.haveValidOutput i = true
      · obtain ⟨hc1, hc2, hc3, hc4⟩ := hvalid.mp hv
        constructor
        · intro hbad
          rcases hbad with hb | hb | hb | hb | hb
          · rw [hf] at hb
            exact absurd hb (by simp)
          · rw [hc1] at hb
            exact absurd hb (by simp)
          · rw [hc2] at hb
            exact absurd hb (by simp)
          · omega
          · omega
        · intro _
          exact ⟨hf, hc1, hc2, hc3, hc4⟩
      · have hv2 : s.haveValidOutput i = false := by
          revert hv
          cases s.haveValidOutput i <;> simp
        constructor
        · intro _
          rw [hv2]
          simp
        · intro hne
          exact absurd (by rw [hv2]; simp) hne
    · have hf2 : flag = false := by
        revert hf
        cases flag <;> simp
      constructor
      · intro _
        rw [hf2]
        simp
      · intro hne
        exact absurd (by rw [hf2]; simp) hne
  exact ⟨(gate s.output.rgb (if i = -1 then Simulator.texLast s.rgbTexs else Simulator.texAt s.rgbTexs i)).1, (gate s.output.rgb (if i = -1 then Simulator.texLast s.rgbTexs else Simulator.texAt s.rgbTexs i)).2, (gate (s.output.rgb && s.output.srgb) (if i = -1 then Simulator.texLast s.srgbTexs else Simulator.texAt s.srgbTexs i)).1, (gate (s.output.rgb && s.output.srgb) (if i = -1 then Simulator.texLast s.srgbTexs else Simulator.texAt s.srgbTexs i)).2, (gate s.output.pmd (if i = -1 then Simulator.texLast s.pmdDigNumTexs else Simulator.texAt s.pmdDigNumTexs i)).1, (gate s.output.pmd (if i = -1 then Simulator.texLast s.pmdDigNumTexs else Simulator.texAt s.pmdDigNumTexs i)).2, (gate s.output.eyeSpacePositions (if i = -1 then Simulator.texAt s.eyeSpacePosTexs 0 else Simulator.texAt s.eyeSpacePosTexs i)).1, (gate s.output.eyeSpacePositions (if i = -1 then Simulator.texAt s.eyeSpacePosTexs 0 else Simulator.texAt s.eyeSpacePosTexs i)).2, (gate s.output.customSpacePositions (if i = -1 then Simulator.texAt s.customSpacePosTexs 0 else Simulator.texAt s.customSpacePosTexs i)).1, (gate s.output.customSpacePositions (if i = -1 then Simulator.texAt s.customSpacePosTexs 0 else Simulator.texAt s.customSpacePosTexs i)).2, (gate s.output.eyeSpaceNormals (if i = -1 then Simulator.texAt s.eyeSpaceNormalTexs 0 else Simulator.texAt s.eyeSpaceNormalTexs i)).1, (gate s.output.eyeSpaceNormals (if i = -1 then Simulator.texAt s.eyeSpaceNormalTexs 0 else Simulator.texAt s.eyeSpaceNormalTexs i)).2, (gate s.output.customSpaceNormals (if i = -1 then Simulator.texAt s.customSpaceNormalTexs 0 else Simulator.texAt s.customSpaceNormalTexs i)).1, (gate s.output.customSpaceNormals (if i = -1 then Simulator.texAt s.customSpaceNormalTexs 0 else Simulator.texAt s.customSpaceNormalTexs i)).2, (gate s.output.depthAndRange (if i = -1 then Simulator.texAt s.depthAndRangeTexs 0 else Simulator.texAt s.depthAndRangeTexs i)).1, (gate s.output.depthAndRange (if i = -1 then Simulator.texAt s.depthAndRangeTexs 0 else Simulator.texAt s.depthAndRangeTexs i)).2, (gate s.output.indices (if i = -1 then Simulator.texAt s.indicesTexs 0 else Simulator.texAt s.indicesTexs i)).1, (gate s.output.indices (if i = -1 then Simulator.texAt s.indicesTexs 0 else Simulator.texAt s.indicesTexs i)).2, (gate s.output.forwardFlow3D (if i = -1 then Simulator.texLast s.forwardFlow3DTexs else Simulator.texAt s.forwardFlow3DTexs i)).1, (gate s.output.forwardFlow3D (if i = -1 then Simulator.texLast s.forwardFlow3DTexs else Simulator.texAt s.forwardFlow3DTexs i)).2, (gate s.output.forwardFlow2D (if i = -1 then Simulator.texLast s.forwardFlow2DTexs else Simulator.texAt s.forwardFlow2DTexs i)).1, (gate s.output.forwardFlow2D (if i = -1 then Simulator.texLast s.forwardFlow2DTexs else Simulator.texAt s.forwardFlow2DTexs i)).2, (gate s.output.backwardFlow3D (if i = -1 then Simulator.texLast s.backwardFlow3DTexs else Simulator.texAt s.backwardFlow3DTexs i)).1, (gate s.output.backwardFlow3D (if i = -1 then Simulator.texLast s.backwardFlow3DTexs else Simulator.texAt s.backwardFlow3DTexs i)).2, (gate s.output.backwardFlow2D (if i = -1 then Simulator.texLast s.backwardFlow2DTexs else Simulator.texAt s.backwardFlow2DTexs i)).1, (gate s.output.backwardFlow2D (if i = -1 then Simulator.texLast s.backwardFlow2DTexs else Simulator.texAt s.backwardFlow2DTexs i)).2⟩

/-- Witness for C4: on a freshly constructed simulator (no frame simulated
yet) the RGB accessor returns the invalid handle. -/
theorem output_accessor_validity_C4_witness :
    Simulator.init.getRGBTex 0 = 0 :=
  (output_accessor_validity_C4 Simulator.init 0).1
    (Or.inr (Or.inr (Or.inl rfl)))

/-! ## Per-light transformation accessor (C2) -/

/-- C2 (code bug): in the scenario `c2Sim` (two lights with constant but
distinct animations, PMD output so four sub-frames), after `simulate(0)`:
`getLightTransformation(1, 0)` is documented (`simulator.hpp` lines 827-830)
and specified to return light 1's animation interpolated at the sub-frame-0
timestamp, which is `lightT1`; the code instead returns `lightT0`, because it
indexes `_lightTransformations[lightIndex][i]` although the cache is filled
as `_lightTransformations[subFrame][lightIndex]` (`simulator.hpp` lines
398-399, `simulator.cpp` lines 1202-1216). -/
theorem getLightTransformation_swapped_C2 :
    isFatal (c2Sim.simulate constSlerp 0) = false ∧
    (simOk (c2Sim.simulate constSlerp 0)).getTimestamp 0 = 0 ∧
    (animGet (simOk (c2Sim.simulate constSlerp 0)).scene.lightAnimations 1).interpolate
        constSlerp ((simOk (c2Sim.simulate constSlerp 0)).getTimestamp 0) = lightT1 ∧
    (simOk (c2Sim.simulate constSlerp 0)).getLightTransformation 1 0 = lightT0 ∧
    lightT0 ≠ lightT1 := by
  refine ⟨by decide, by decide, by decide, by decide, by decide⟩

end CamSim
